import Mathlib

/-!
Verification of the SAJ Solar & Battery Monitor data-reconciliation engine
(src/saj_api.py) against its natural-language specification.

The vendor payloads are JSON objects whose values are numbers or strings
(numbers-as-strings are common).  We embed them as association lists of
`Val`; the processed record is an association list of `PVal`.  Python
semantics that matter here and are modelled explicitly:

* dict membership and lookup (first matching key);
* truthiness of values (empty string and numeric zero are falsy) and of
  dicts (empty dict is falsy);
* `float(v)` — succeeds on numbers and numeric strings, raises on other
  strings (modelled by `Val.toFloat?` returning `none`);
* `int(v)` — truncates numbers toward zero, parses integer-literal
  strings, raises otherwise (`Val.toInt?`);
* exception flow: a `try` block that fails mid-way keeps the dict
  mutations already performed; the handlers in the source return the
  partial record (battery path) or fall through to the next section
  (solar sections).  Abortable computations are embedded as
  `Except PDict _` where the error value carries the record built so far.
-/

namespace SAJ

/-- A vendor JSON value: a number, a numeric string (its text and the
number it parses to), or a non-numeric string. -/
inductive Val where
  | num (q : Rat)
  | numstr (s : String) (q : Rat)
  | str (s : String)
deriving DecidableEq, Repr

/-- Python truthiness of a payload value. -/
def Val.truthy : Val → Bool
  | .num q => q ≠ 0
  | .numstr s _ => s ≠ ""
  | .str s => s ≠ ""

/-- Python float(v): numbers and numeric strings convert, other strings raise. -/
def Val.toFloat? : Val → Option Rat
  | .num q => some q
  | .numstr _ q => some q
  | .str _ => none

/-- Python int(v): truncation toward zero for numbers, integer-literal
parsing for strings. -/
def Val.toInt? : Val → Option Int
  | .num q => some (if 0 ≤ q then ⌊q⌋ else ⌈q⌉)
  | .numstr s _ => s.toInt?
  | .str s => s.toInt?

/-- Python test v != "0" (a number is never equal to a string). -/
def Val.neStrZero : Val → Bool
  | .num _ => true
  | .numstr s _ => s ≠ "0"
  | .str s => s ≠ "0"

/-- A vendor payload object. -/
abbrev VDict := List (String × Val)

/-- Python dict lookup d[k] / d.get(k): value at the key, if present. -/
def findVal : VDict → String → Option Val
  | [], _ => none
  | (k', v) :: rest, k => if k' = k then some v else findVal rest k

/-- Python membership test k in d. -/
def hasKey (d : VDict) (k : String) : Bool := (findVal d k).isSome

/-- Python float(d.get(k, 0)): 0.0 when the key is absent, otherwise a
conversion that can raise. -/
def floatGetD (d : VDict) (k : String) : Option Rat :=
  match findVal d k with
  | none => some 0
  | some v => v.toFloat?

/-- Python int(d.get(k, 0)). -/
def intGetD (d : VDict) (k : String) : Option Int :=
  match findVal d k with
  | none => some 0
  | some v => v.toInt?

/-- A processed-record value: a number or an enumeration string. -/
inductive PVal where
  | num (q : Rat)
  | s (str : String)
deriving DecidableEq, Repr

/-- The processed record.  Insertion shadows earlier entries, so lookup
observes exactly Python dict assignment. -/
abbrev PDict := List (String × PVal)

/-- Python processed[k] = v. -/
def pput (p : PDict) (k : String) (v : PVal) : PDict := (k, v) :: p

/-- Lookup in the processed record (latest assignment wins). -/
def pfind : PDict → String → Option PVal
  | [], _ => none
  | (k', v) :: rest, k => if k' = k then some v else pfind rest k

/-- Python membership test k in processed. -/
def phas (p : PDict) (k : String) : Bool := (pfind p k).isSome

/-! ## Field combinators shared by the processing paths -/

/-- Embeds: if src in d: try: processed[dst] = float(d.get(src, 0))
except: pass — the failure omits just this field. -/
def tryFloatPresent (d : VDict) (src dst : String) (p : PDict) : PDict :=
  match findVal d src with
  | none => p
  | some v =>
    match v.toFloat? with
    | none => p
    | some q => pput p dst (.num q)

/-- Embeds: if src in d and d[src]: try: processed[dst] = float(d[src])
except: pass. -/
def tryFloatTruthy (d : VDict) (src dst : String) (p : PDict) : PDict :=
  match findVal d src with
  | none => p
  | some v =>
    if v.truthy then
      match v.toFloat? with
      | none => p
      | some q => pput p dst (.num q)
    else p

/-- Embeds processed[dst] = float(d.get(src, 0)) inside an enclosing try:
a conversion failure raises, escaping with the record built so far. -/
def floatD0Abort (d : VDict) (src dst : String) (p : PDict) : Except PDict PDict :=
  match floatGetD d src with
  | none => .error p
  | some q => .ok (pput p dst (.num q))

/-- Embeds: if src in d: processed[dst] = float(d.get(src, 0)) inside an
enclosing try (no inner try, so a failure raises). -/
def floatPresentAbort (d : VDict) (src dst : String) (p : PDict) : Except PDict PDict :=
  match findVal d src with
  | none => .ok p
  | some v =>
    match v.toFloat? with
    | none => .error p
    | some q => .ok (pput p dst (.num q))

/-- Embeds: if src in d and d[src]: processed[dst] = float(d[src]) inside
an enclosing try (failure raises). -/
def floatTruthyAbort (d : VDict) (src dst : String) (p : PDict) : Except PDict PDict :=
  match findVal d src with
  | none => .ok p
  | some v =>
    if v.truthy then
      match v.toFloat? with
      | none => .error p
      | some q => .ok (pput p dst (.num q))
    else .ok p

/-- Embeds: if src in d and d[src] != "0": processed[dst] = float(d[src])
inside an enclosing try (failure raises). -/
def floatNeZeroAbort (d : VDict) (src dst : String) (p : PDict) : Except PDict PDict :=
  match findVal d src with
  | none => .ok p
  | some v =>
    if v.neStrZero then
      match v.toFloat? with
      | none => .error p
      | some t => .ok (pput p dst (.num t))
    else .ok p

/-- Statement sequencing inside one try block: a raise in the first
statement skips the second. -/
def excSeq (e : Except PDict PDict) (f : PDict → Except PDict PDict) : Except PDict PDict :=
  match e with
  | .error q => .error q
  | .ok p => f p

/-- The records an abortable computation can escape with (error) or
continue with (ok). -/
def ExcOut (e : Except PDict PDict) (q : PDict) : Prop := e = .error q ∨ e = .ok q

/-- The end of a try block: the handler falls through with the partial
record, a normal exit continues with the final one. -/
def runExc : Except PDict PDict → PDict
  | .error q => q
  | .ok q => q

/-- Statement sequencing for a computation that also threads a running
total (the phase block). -/
def excSeqP (e : Except PDict (PDict × Rat))
    (f : PDict → Rat → Except PDict (PDict × Rat)) : Except PDict (PDict × Rat) :=
  match e with
  | .error q => .error q
  | .ok (p, t) => f p t

/-- Pairs a record-only abortable step with an unchanged running total. -/
def liftP (e : Except PDict PDict) (t : Rat) : Except PDict (PDict × Rat) :=
  match e with
  | .error q => .error q
  | .ok p => .ok (p, t)

/-- The records a total-threading abortable computation can produce. -/
def PExcOut (e : Except PDict (PDict × Rat)) (q : PDict) : Prop :=
  e = .error q ∨ ∃ t, e = .ok (q, t)

/-! ## Battery realtime processing (_process_battery_realtime_data, lines 426-570)

The whole body sits in one try/except (ValueError, TypeError) whose
handler returns the partial record, so every conversion without an inner
try aborts the remaining processing while keeping what was already set.
The function is split here into the sequential segments of the source;
the segments after the battery-status assignment form batteryTail. -/

/-- Lines 479-482: batTempC (guarded by != "0") then sinkTempC; the
float calls have no inner try. -/
def batterySegTemp (data : VDict) (p : PDict) : Except PDict PDict :=
  excSeq (floatNeZeroAbort data "batTempC" "battery_temp" p)
    (floatNeZeroAbort data "sinkTempC" "sink_temp")

/-- Lines 485-486: today battery charge/discharge (defaulted, no inner try). -/
def batterySegEnergy1 (data : VDict) (p : PDict) : Except PDict PDict :=
  excSeq (floatD0Abort data "todayBatChgEnergy" "today_battery_charge" p)
    (floatD0Abort data "todayBatDisEnergy" "today_battery_discharge")

/-- Lines 489-492: total battery charge/discharge (presence-guarded, no
inner try). -/
def batterySegEnergy2 (data : VDict) (p : PDict) : Except PDict PDict :=
  excSeq (floatPresentAbort data "totalBatChgEnergy" "total_battery_charge" p)
    (floatPresentAbort data "totalBatDisEnergy" "total_battery_discharge")

/-- Lines 494-496: today load, today PV, total PV energies (defaulted, no
inner try). -/
def batterySegEnergy3 (data : VDict) (p : PDict) : Except PDict PDict :=
  excSeq (floatD0Abort data "todayLoadEnergy" "today_load_energy" p)
    (fun p => excSeq (floatD0Abort data "todayPvEnergy" "today_pv_energy" p)
      (floatD0Abort data "totalPvEnergy" "total_pv_energy"))

/-- Lines 499-504: totalPVPower with its own inner try. -/
def batterySegPv (data : VDict) (p : PDict) : PDict :=
  tryFloatPresent data "totalPVPower" "total_pv_power_calculated" p

/-- Lines 507-508: today grid export/import energies (defaulted, no inner
try). -/
def batterySegGrid1 (data : VDict) (p : PDict) : Except PDict PDict :=
  excSeq (floatD0Abort data "todaySellEnergy" "today_grid_export_energy" p)
    (floatD0Abort data "todayFeedInEnergy" "today_grid_import_energy")

/-- Lines 511-532: total grid export/import and total load energies, each
with its own inner try. -/
def batterySegGrid2 (data : VDict) (p : PDict) : PDict :=
  let p := tryFloatPresent data "totalSellEnergy" "total_grid_export" p
  let p := tryFloatPresent data "totalFeedInEnergy" "total_grid_import" p
  tryFloatPresent data "totalTotalLoadEnergy" "total_load_energy" p

/-- Lines 535-542: mpvMode with its own inner try; sets operating mode and
status to the same integer. -/
def batterySegMode (data : VDict) (p : PDict) : PDict :=
  match findVal data "mpvMode" with
  | none => p
  | some v =>
    match v.toInt? with
    | none => p
    | some m => pput (pput p "operating_mode" (.num m)) "operating_status" (.num m)

/-- Lines 545-554: annual production/savings projection from todayPvEnergy
and the day of the year, with its own inner try. -/
def batterySegAnnual (data : VDict) (doy : Nat) (p : PDict) : PDict :=
  match findVal data "todayPvEnergy" with
  | none => p
  | some v =>
    match v.toFloat? with
    | none => p
    | some e =>
      if doy > 0 then
        let prod := e / (doy : Rat) * 365
        pput (pput p "estimated_annual_production" (.num prod))
          "estimated_annual_savings" (.num (prod * (0.15 : Rat)))
      else p

/-- Lines 479-554: everything after the battery-status assignment.  An
escape from any abortable segment returns the partial record (the outer
except handler). -/
def batteryTail (data : VDict) (doy : Nat) (p : PDict) : PDict :=
  match batterySegTemp data p with
  | .error q => q
  | .ok p =>
  match batterySegEnergy1 data p with
  | .error q => q
  | .ok p =>
  match batterySegEnergy2 data p with
  | .error q => q
  | .ok p =>
  match batterySegEnergy3 data p with
  | .error q => q
  | .ok p =>
  let p := batterySegPv data p
  match batterySegGrid1 data p with
  | .error q => q
  | .ok p =>
  let p := batterySegGrid2 data p
  let p := batterySegMode data p
  batterySegAnnual data doy p

/-- Embedding of _process_battery_realtime_data (lines 426-570).  doy
models dt_util.now().timetuple().tm_yday. -/
def processBatteryRealtimeData (data : VDict) (doy : Nat) : PDict :=
  let p : PDict := []
  match floatGetD data "sysGridPowerWatt" with
  | none => p
  | some grid_power =>
  let p := pput p "grid_power_abs" (.num |grid_power|)
  match intGetD data "gridDirection" with
  | none => p
  | some gdv =>
  let gdir := if gdv = 1 then "exporting" else if gdv = -1 then "importing" else "idle"
  let p := pput p "grid_status_calculated" (.s gdir)
  match floatGetD data "sysTotalLoadWatt" with
  | none => p
  | some load =>
  let p := pput p "home_load_power" (.num load)
  match floatGetD data "batPower" with
  | none => p
  | some bat_power =>
  match floatGetD data "batEnergyPercent" with
  | none => p
  | some bat_level =>
  let p := pput p "battery_level" (.num bat_level)
  let p := pput p "battery_power_abs" (.num |bat_power|)
  match intGetD data "batteryDirection" with
  | none => p
  | some bat_direction =>
  let bat_status := if bat_direction = 0 then "Standby"
                    else if bat_power > 0 then "Discharging" else "Charging"
  let p := pput p "battery_status_calculated" (.s bat_status)
  batteryTail data doy p

/-! ## Solar processing (_process_solar_data, lines 572-918)

The is_realtime argument of the source is used only in log strings and is
omitted.  The sections run in source order: the PV / phase / temperature
block (daytime) or the zero-fill block (nighttime), then grid, load,
plant statistics, and energy. -/

/-- The latest-sample/today-totals bundle built by
get_load_monitoring_data (lines 264-269); when the fetch succeeds the
bundle always carries both members, and the dict is never empty, so a
present bundle is always truthy. -/
structure LoadMon where
  latest : VDict
  total : VDict
deriving DecidableEq, Repr

/-- Channel indices 1..16 scanned by the source loops (range(1, 17)). -/
def pvIdx : List Nat := [1, 2, 3, 4, 5, 6, 7, 8, 9, 10, 11, 12, 13, 14, 15, 16]

/-- Lines 613-623: one pv{i}power channel — when present and truthy, add
it to the running sum and record pv{i}_power; a conversion failure (the
loop body's own try) skips just this channel. -/
def pvPowerStep (data : VDict) (acc : PDict × Rat) (i : Nat) : PDict × Rat :=
  match findVal data ("pv" ++ toString i ++ "power") with
  | none => acc
  | some v =>
    if v.truthy then
      match v.toFloat? with
      | none => acc
      | some q => (pput acc.1 ("pv" ++ toString i ++ "_power") (.num q), acc.2 + q)
    else acc

/-- Lines 626-644: pv{i}volt / pv{i}curr copied through per channel, each
in its own try. -/
def pvVoltCurrStep (data : VDict) (p : PDict) (i : Nat) : PDict :=
  let p := tryFloatTruthy data ("pv" ++ toString i ++ "volt") ("pv" ++ toString i ++ "_voltage") p
  tryFloatTruthy data ("pv" ++ toString i ++ "curr") ("pv" ++ toString i ++ "_current") p

/-- Lines 646-663: prefer a reported totalPVPower when it parses and is
> 0; otherwise use the channel sum when that is positive, else 0. -/
def pvTotalDecision (data : VDict) (total_pv_power : Rat) (p : PDict) : PDict :=
  match findVal data "totalPVPower" with
  | none =>
    pput p "total_pv_power_calculated" (.num (if total_pv_power > 0 then total_pv_power else 0))
  | some v =>
    match v.toFloat? with
    | none =>
      pput p "total_pv_power_calculated" (.num (if total_pv_power > 0 then total_pv_power else 0))
    | some rt =>
      if rt > 0 then pput p "total_pv_power_calculated" (.num rt)
      else
        pput p "total_pv_power_calculated" (.num (if total_pv_power > 0 then total_pv_power else 0))

/-- Lines 611-666: the daytime PV block. -/
def solarDayPv (data : VDict) (p : PDict) : PDict :=
  let acc := pvIdx.foldl (pvPowerStep data) (p, 0)
  let p := pvIdx.foldl (pvVoltCurrStep data) acc.1
  pvTotalDecision data acc.2 p

/-- Lines 672-694: one phase of the grid-phase block; the power reading
accumulates into the running total, and all four conversions sit inside
the single enclosing try. -/
def phasePowerStep (data : VDict) (ph : String) (p : PDict) (total : Rat) :
    Except PDict (PDict × Rat) :=
  match findVal data (ph ++ "GridPowerWatt") with
  | none => .ok (p, total)
  | some v =>
    if v.truthy then
      match v.toFloat? with
      | none => .error p
      | some q => .ok (pput p (ph ++ "_phase_power") (.num q), total + q)
    else .ok (p, total)

def phaseBlock (data : VDict) (ph : String) (p : PDict) (total : Rat) :
    Except PDict (PDict × Rat) :=
  excSeqP (phasePowerStep data ph p total) (fun p total =>
    excSeqP (liftP (floatTruthyAbort data (ph ++ "GridVolt") (ph ++ "_phase_voltage") p) total)
      (fun p total =>
        excSeqP (liftP (floatTruthyAbort data (ph ++ "GridCurr") (ph ++ "_phase_current") p) total)
          (fun p total =>
            liftP (floatTruthyAbort data (ph ++ "GridFreq") (ph ++ "_phase_frequency") p) total)))

/-- Lines 668-699: the phase block for phases r, s, t with one enclosing
try; a failure keeps the fields already written and skips the rest of the
block, including total_phase_power. -/
def solarPhaseSection (data : VDict) (p : PDict) : PDict :=
  match phaseBlock data "r" p 0 with
  | .error q => q
  | .ok (p, t) =>
    match phaseBlock data "s" p t with
    | .error q => q
    | .ok (p, t) =>
      match phaseBlock data "t" p t with
      | .error q => q
      | .ok (p, t) => pput p "total_phase_power" (.num t)

/-- Lines 701-714: inverter and sink temperature, one enclosing try. -/
def solarTempSection (data : VDict) (p : PDict) : PDict :=
  runExc (excSeq (floatTruthyAbort data "invTempC" "inverter_temp" p)
    (floatTruthyAbort data "sinkTempC" "sink_temp"))

/-- Lines 588-609: the nighttime zero-fill — PV1/PV2 power, voltage and
current, all r/s/t phase readings, the calculated total, and the default
operating mode/status. -/
def solarNightFill (p : PDict) : PDict :=
  let p := pput p "total_pv_power_calculated" (.num 0)
  let p := pput (pput (pput p "pv1_power" (.num 0)) "pv1_voltage" (.num 0)) "pv1_current" (.num 0)
  let p := pput (pput (pput p "pv2_power" (.num 0)) "pv2_voltage" (.num 0)) "pv2_current" (.num 0)
  let p := pput (pput (pput (pput p "r_phase_power" (.num 0)) "r_phase_voltage" (.num 0))
    "r_phase_current" (.num 0)) "r_phase_frequency" (.num 0)
  let p := pput (pput (pput (pput p "s_phase_power" (.num 0)) "s_phase_voltage" (.num 0))
    "s_phase_current" (.num 0)) "s_phase_frequency" (.num 0)
  let p := pput (pput (pput (pput p "t_phase_power" (.num 0)) "t_phase_voltage" (.num 0))
    "t_phase_current" (.num 0)) "t_phase_frequency" (.num 0)
  pput (pput p "operating_mode" (.num 0)) "operating_status" (.num 1)

/-- Lines 716-755: grid power and direction.  A present load-monitoring
bundle is used exclusively (its latest sample must carry both buyPower
and sellPower, otherwise nothing is produced); the primary source's
totalGridPowerWatt is consulted only when load monitoring is absent and
the mode is not nighttime. -/
def solarGridSection (isNighttime : Bool) (data : VDict) (lm : Option LoadMon)
    (p : PDict) : PDict :=
  match lm with
  | some l =>
    if hasKey l.latest "buyPower" && hasKey l.latest "sellPower" then
      match floatGetD l.latest "buyPower" with
      | none => p
      | some buy =>
        match floatGetD l.latest "sellPower" with
        | none => p
        | some sell =>
          let grid_power := buy - sell
          let dir := if grid_power < 0 then "exporting"
                     else if grid_power > 0 then "importing" else "idle"
          pput (pput p "grid_status_calculated" (.s dir)) "grid_power_abs" (.num |grid_power|)
    else p
  | none =>
    if !isNighttime then
      match findVal data "totalGridPowerWatt" with
      | none => p
      | some _ =>
        match floatGetD data "totalGridPowerWatt" with
        | none => p
        | some gp =>
          let dir := if gp < 0 then "exporting" else if gp > 0 then "importing" else "idle"
          pput (pput p "grid_status_calculated" (.s dir)) "grid_power_abs" (.num |gp|)
    else p

/-- Lines 757-781: home load power, load monitoring preferred. -/
def solarLoadSection (isNighttime : Bool) (data : VDict) (lm : Option LoadMon)
    (p : PDict) : PDict :=
  match lm with
  | some l =>
    if hasKey l.latest "loadPower" then
      match floatGetD l.latest "loadPower" with
      | none => p
      | some lp => pput p "home_load_power" (.num lp)
    else p
  | none =>
    if !isNighttime && hasKey data "totalLoadPowerWatt" then
      match floatGetD data "totalLoadPowerWatt" with
      | none => p
      | some lp => pput p "home_load_power" (.num lp)
    else p

/-- Lines 800-811 (and the identical 1000-1012): annual projection from
yearPvEnergy and the day of the year, inside the plant-stats try. -/
def plantAnnual (ps : VDict) (doy : Nat) (p : PDict) : Except PDict PDict :=
  match findVal ps "yearPvEnergy" with
  | none => .ok p
  | some v =>
    match v.toFloat? with
    | none => .error p
    | some ye =>
      if doy > 0 then
        let prod := ye / (doy : Rat) * 365
        .ok (pput (pput p "estimated_annual_production" (.num prod))
          "estimated_annual_savings" (.num (prod * (0.15 : Rat))))
      else .ok p

/-- Lines 784-813 (duplicated verbatim at 983-1014): environmental and
projection figures from plant statistics, one enclosing try.  An absent
plant_stats (None) and an empty dict are both falsy and skip the block. -/
def plantStatsSection (ps : VDict) (doy : Nat) (p : PDict) : PDict :=
  if ps.isEmpty then p
  else
    runExc (excSeq (floatPresentAbort ps "totalReduceCo2" "co2_reduction" p)
      (fun p => excSeq (floatPresentAbort ps "totalPlantTreeNum" "equivalent_trees" p)
        (plantAnnual ps doy)))

/-- Lines 818-826: today's PV energy — 0 at night, otherwise from
todayPvEnergy with the conversion failure also mapped to 0. -/
def energyTodayPv (isNighttime : Bool) (data : VDict) (p : PDict) : PDict :=
  if isNighttime then pput p "today_pv_energy" (.num 0)
  else
    match findVal data "todayPvEnergy" with
    | none => p
    | some v =>
      match v.toFloat? with
      | none => pput p "today_pv_energy" (.num 0)
      | some q => pput p "today_pv_energy" (.num q)

/-- Lines 829-839: total PV energy from the primary source, falling back
to plant statistics. -/
def energyTotalPv (data : VDict) (ps : VDict) (p : PDict) : PDict :=
  match findVal data "totalPvEnergy" with
  | some v =>
    (match v.toFloat? with
     | none => p
     | some q => pput p "total_pv_energy" (.num q))
  | none =>
    if !ps.isEmpty && hasKey ps "totalPvEnergy" then
      match findVal ps "totalPvEnergy" with
      | none => p
      | some v =>
        (match v.toFloat? with
         | none => p
         | some q => pput p "total_pv_energy" (.num q))
    else p

/-- Lines 842-850: today's grid export — 0 at night, otherwise from
todaySellEnergy with the conversion failure also mapped to 0. -/
def energyTodayExport (isNighttime : Bool) (data : VDict) (p : PDict) : PDict :=
  if isNighttime then pput p "today_grid_export_energy" (.num 0)
  else
    match findVal data "todaySellEnergy" with
    | none => p
    | some v =>
      match v.toFloat? with
      | none => pput p "today_grid_export_energy" (.num 0)
      | some q => pput p "today_grid_export_energy" (.num q)

/-- Lines 853-863: total grid export from the primary source, falling
back to plant statistics. -/
def energyTotalExport (data : VDict) (ps : VDict) (p : PDict) : PDict :=
  match findVal data "totalSellEnergy" with
  | some v =>
    (match v.toFloat? with
     | none => p
     | some q => pput p "total_grid_export" (.num q))
  | none =>
    if !ps.isEmpty && hasKey ps "totalSellEnergy" then
      match findVal ps "totalSellEnergy" with
      | none => p
      | some v =>
        (match v.toFloat? with
         | none => p
         | some q => pput p "total_grid_export" (.num q))
    else p

/-- Lines 879-885: pvEnergy from the load-monitoring today totals is
written into today_pv_energy unconditionally (it overwrites any earlier
value). -/
def energyLmPv (l : LoadMon) (p : PDict) : PDict :=
  tryFloatPresent l.total "pvEnergy" "today_pv_energy" p

/-- Lines 887-891. -/
def energyLmLoad (l : LoadMon) (p : PDict) : PDict :=
  tryFloatPresent l.total "loadEnergy" "total_load_energy" p

/-- Lines 893-898: buyEnergy sets both totals (the same conversion twice
in the source; one failure omits both). -/
def energyLmBuy (l : LoadMon) (p : PDict) : PDict :=
  match findVal l.total "buyEnergy" with
  | none => p
  | some v =>
    match v.toFloat? with
    | none => p
    | some q => pput (pput p "total_grid_import" (.num q)) "today_grid_import_energy" (.num q)

/-- Lines 900-908: sellEnergy sets total_grid_export only when not yet
set (first-wins) but always overwrites today_grid_export_energy. -/
def energyLmSell (l : LoadMon) (p : PDict) : PDict :=
  match findVal l.total "sellEnergy" with
  | none => p
  | some v =>
    match v.toFloat? with
    | none => p
    | some q =>
      let p := if phas p "total_grid_export" then p else pput p "total_grid_export" (.num q)
      pput p "today_grid_export_energy" (.num q)

/-- Lines 866-908: the load-monitoring energy block. -/
def energyLmBlock (lm : Option LoadMon) (p : PDict) : PDict :=
  match lm with
  | none => p
  | some l => energyLmSell l (energyLmBuy l (energyLmLoad l (energyLmPv l p)))

/-- Lines 815-908: the energy section. -/
def solarEnergySection (isNighttime : Bool) (data : VDict) (lm : Option LoadMon)
    (ps : VDict) (p : PDict) : PDict :=
  let p := energyTodayPv isNighttime data p
  let p := energyTotalPv data ps p
  let p := energyTodayExport isNighttime data p
  let p := energyTotalExport data ps p
  energyLmBlock lm p

/-- Embedding of _process_solar_data (lines 572-918). -/
def processSolarData (data : VDict) (isNighttime : Bool) (lm : Option LoadMon)
    (ps : VDict) (doy : Nat) : PDict :=
  let p : PDict := []
  let p := if isNighttime then solarNightFill p
           else solarTempSection data (solarPhaseSection data (solarDayPv data p))
  let p := solarGridSection isNighttime data lm p
  let p := solarLoadSection isNighttime data lm p
  let p := plantStatsSection ps doy p
  solarEnergySection isNighttime data lm ps p

/-! ## Device-level dispatch and source selection -/

inductive DeviceType where
  | solar
  | battery
  | other
deriving DecidableEq, Repr

/-- Python truthiness of an optional payload (None and the empty dict are
falsy). -/
def optTruthy : Option VDict → Bool
  | none => false
  | some d => !d.isEmpty

/-- Python test data.get("isOnline") == "1" (true only for the string
"1"; a missing key or a number compares unequal). -/
def isOnlineOne (d : VDict) : Bool :=
  match findVal d "isOnline" with
  | some (.numstr s _) => s == "1"
  | some (.str s) => s == "1"
  | _ => false

/-- Lines 949-963: the battery history path derives the status from the
sign of batPower alone (batteryDirection is not consulted here). -/
def batteryHistoryBlock (data : VDict) (p : PDict) : PDict :=
  match floatGetD data "batPower" with
  | none => p
  | some bp =>
    let st := if bp > 0 then "Discharging" else if bp < 0 then "Charging" else "Standby"
    pput (pput p "battery_status_calculated" (.s st)) "battery_power_abs" (.num |bp|)

/-- Lines 966-980: temperature block of the generic path (one try,
guarded by the presence of either key). -/
def genericTempSection (data : VDict) (p : PDict) : PDict :=
  if hasKey data "invTempC" || hasKey data "sinkTempC" then
    runExc (excSeq (floatTruthyAbort data "invTempC" "inverter_temp" p)
      (floatTruthyAbort data "sinkTempC" "sink_temp"))
  else p

/-- Embedding of _process_device_data (lines 920-1017).  plant_stats is
collapsed to a VDict with None represented by the empty dict — the source
only ever tests its truthiness and membership. -/
def processDeviceData (data : Option VDict) (ps : VDict) (dtype : DeviceType)
    (isRealtime : Bool) (lm : Option LoadMon) (doy : Nat) : PDict :=
  if !optTruthy data && dtype ≠ .solar then []
  else if isRealtime && dtype = .battery then
    processBatteryRealtimeData (data.getD []) doy
  else if dtype = .solar then
    let d := data.getD []
    let isNighttime := !optTruthy data || (isRealtime && !isOnlineOne d)
    processSolarData d isNighttime lm ps doy
  else
    let d := data.getD []
    let p : PDict := []
    let p := if dtype = .battery then batteryHistoryBlock d p else p
    let p := genericTempSection d p
    plantStatsSection ps doy p

/-- The per-device fetch results get_device_data works from.  history
distinguishes failure (none) from the benign empty result (some []). -/
structure FetchResults where
  plantStats : Option VDict
  deviceInfo : Option VDict
  loadMonitoring : Option LoadMon
  realtime : Option VDict
  history : Option VDict
deriving DecidableEq, Repr

/-- What get_device_data settles on for one device: the primary source
passed to processing, the realtime flag, and the processed record. -/
structure DeviceResult where
  dataToProcess : VDict
  isRealtime : Bool
  processed : PDict
deriving DecidableEq, Repr

/-- Embedding of the source-selection logic of get_device_data (lines
302-414): required sources per device type, the primary-source decision
for solar, and the whole-device failure cases (None). -/
def getDeviceData (dtype : DeviceType) (fr : FetchResults) (doy : Nat) :
    Option DeviceResult :=
  let ps := fr.plantStats.getD []
  match dtype with
  | .battery =>
    if !optTruthy fr.realtime then none
    else
      let rd := fr.realtime.getD []
      some ⟨rd, true, processDeviceData (some rd) ps .battery true fr.loadMonitoring doy⟩
  | .solar =>
    if !optTruthy fr.history && !optTruthy fr.realtime && fr.loadMonitoring.isNone then none
    else
      let sel : Bool × VDict :=
        if optTruthy fr.realtime && isOnlineOne (fr.realtime.getD []) then
          (true, fr.realtime.getD [])
        else if optTruthy fr.history then (false, fr.history.getD [])
        else (false, [])
      some ⟨sel.2, sel.1, processDeviceData (some sel.2) ps .solar sel.1 fr.loadMonitoring doy⟩
  | .other =>
    if !optTruthy fr.history then none
    else
      let hd := fr.history.getD []
      some ⟨hd, false, processDeviceData (some hd) ps .other false fr.loadMonitoring doy⟩

/-! ## Token acquisition and fetch invocation -/

/-- A top-level member of the token endpoint's JSON envelope: a scalar or
a nested object. -/
inductive TField where
  | scalar (v : Val)
  | obj (d : VDict)
deriving DecidableEq, Repr

abbrev TokenJson := List (String × TField)

def tfind : TokenJson → String → Option TField
  | [], _ => none
  | (k', v) :: rest, k => if k' = k then some v else tfind rest k

/-- Embedding of _get_token (lines 39-71): no token when the envelope has
no "data" member, when "data" is not an object (the membership test then
raises and the generic handler returns None), or when the data object
lacks "access_token". -/
def getToken (resp : TokenJson) : Option Val :=
  match tfind resp "data" with
  | none => none
  | some (.scalar _) => none
  | some (.obj d) =>
    match findVal d "access_token" with
    | none => none
    | some v => some v

/-- Embedding of _make_api_request (lines 73-114): without a token the
request is never sent and the fetch yields None. -/
def makeApiRequest (token : Option Val) (resp : Option VDict) : Option VDict :=
  match token with
  | none => none
  | some _ => resp

inductive SourceKind where
  | plantStatsK
  | deviceInfoK
  | loadMonitoringK
  | realtimeK
  | historyK
deriving DecidableEq, Repr

/-- The source fetchers get_device_data invokes, in order, for one device
(lines 313-356).  Every fetcher acquires its own token inside the call,
so the set of invocations does not depend on authentication state. -/
def deviceFetchCalls (dtype : DeviceType) : List SourceKind :=
  match dtype with
  | .battery => [.plantStatsK, .deviceInfoK, .realtimeK]
  | .solar => [.plantStatsK, .deviceInfoK, .loadMonitoringK, .realtimeK, .historyK]
  | .other => [.plantStatsK, .deviceInfoK, .loadMonitoringK, .historyK]

/-- All keys the post-status battery segments can write. -/
def batteryTailKeys : List String :=
  ["battery_temp", "sink_temp", "today_battery_charge", "today_battery_discharge",
   "total_battery_charge", "total_battery_discharge", "today_load_energy",
   "today_pv_energy", "total_pv_energy", "total_pv_power_calculated",
   "today_grid_export_energy", "today_grid_import_energy", "total_grid_export",
   "total_grid_import", "total_load_energy", "operating_mode", "operating_status",
   "estimated_annual_production", "estimated_annual_savings"]

/-- The keys the phase section can write. -/
def phaseKeys : List String :=
  ["r_phase_power", "r_phase_voltage", "r_phase_current", "r_phase_frequency",
   "s_phase_power", "s_phase_voltage", "s_phase_current", "s_phase_frequency",
   "t_phase_power", "t_phase_voltage", "t_phase_current", "t_phase_frequency",
   "total_phase_power"]

/-- The keys the energy section can write. -/
def energyKeys : List String :=
  ["today_pv_energy", "total_pv_energy", "today_grid_export_energy", "total_grid_export",
   "total_load_energy", "total_grid_import", "today_grid_import_energy"]

/-- The record keys the load, plant-statistics and energy sections (the
sections after the grid section) can write. -/
def afterGridKeys : List String :=
  ["home_load_power", "co2_reduction", "equivalent_trees", "estimated_annual_production",
   "estimated_annual_savings", "today_pv_energy", "total_pv_energy",
   "today_grid_export_energy", "total_grid_export", "total_load_energy",
   "total_grid_import", "today_grid_import_energy"]

/-! ## Concrete payloads used by the claim theorems -/

/-- Scenario A battery realtime payload from the spec. -/
def scenarioAData : VDict :=
  [("sysGridPowerWatt", .num (-500)), ("gridDirection", .num 1),
   ("batPower", .num 200), ("batteryDirection", .num (-1)), ("batEnergyPercent", .num 77)]

/-- A battery realtime payload with zero grid magnitude and the exporting
direction code. -/
def zeroGridExportData : VDict := [("sysGridPowerWatt", .num 0), ("gridDirection", .num 1)]

/-- A battery realtime payload carrying only a battery level. -/
def levelOnlyData : VDict := [("batEnergyPercent", .num 77)]

/-- A battery realtime payload whose grid reading is a non-numeric string. -/
def badGridData : VDict := [("sysGridPowerWatt", .str "abc"), ("batEnergyPercent", .num 77)]

/-- A daytime solar payload carrying a primary today-PV figure. -/
def todayPv5Data : VDict := [("todayPvEnergy", .num 5)]

/-- A load-monitoring bundle whose today totals report pvEnergy 7. -/
def lmPv7 : LoadMon := ⟨[], [("pvEnergy", .num 7)]⟩

/-- Scenario C history payload from the spec. -/
def scenarioCData : VDict :=
  [("pv1power", .num 100), ("pv2power", .num 50), ("totalPVPower", .num 0)]

/-- A battery history payload with positive power and the neutral
direction code. -/
def histNeutralData : VDict := [("batPower", .num 100), ("batteryDirection", .num 0)]

/-- Fetch results with a present but offline realtime point and nothing
else. -/
def offlineFetch : FetchResults := ⟨none, none, none, some [("isOnline", .numstr "0" 0)], none⟩

/-- A solar payload carrying the grid fallback field. -/
def gridFallbackData : VDict := [("totalGridPowerWatt", .num 400)]

/-- A load-monitoring bundle whose latest sample lacks sellPower. -/
def lmBuyOnly : LoadMon := ⟨[("buyPower", .num 3)], []⟩

/-- A load-monitoring bundle with a full buy/sell pair. -/
def lmBuySell : LoadMon := ⟨[("buyPower", .num 800), ("sellPower", .num 300)], []⟩

/-- A token response whose data object lacks access_token. -/
def tokenNoAccess : TokenJson :=
  [("code", .scalar (.num 200)), ("data", .obj [("expires_in", .num 7200)])]

/-- Fetch results with an online realtime point. -/
def onlineFetch : FetchResults := ⟨none, none, none, some [("isOnline", .numstr "1" 1)], none⟩

/-- Fetch results with only a history point. -/
def historyFetch : FetchResults := ⟨none, none, none, none, some [("pv1power", .num 10)]⟩

/-- Fetch results with only load monitoring. -/
def lmOnlyFetch : FetchResults := ⟨none, none, some lmBuyOnly, none, none⟩

/-- Fetch results with nothing available. -/
def emptyFetch : FetchResults := ⟨none, none, none, none, none⟩

/-- A solar payload with both total-energy fields. -/
def exportBothData : VDict := [("totalSellEnergy", .num 11), ("totalPvEnergy", .num 13)]

/-- A load-monitoring bundle whose totals carry sellEnergy and pvEnergy. -/
def lmSell9 : LoadMon := ⟨[], [("sellEnergy", .num 9), ("pvEnergy", .num 7)]⟩

/-- A battery realtime payload with neutral direction and nonzero power. -/
def standbyData : VDict := [("batteryDirection", .num 0), ("batPower", .num 150)]

/-- A solar payload whose third PV channel reports power. -/
def pv3Data : VDict := [("pv3power", .num 25)]

theorem pfind_pput (p : PDict) (k : String) (v : PVal) :
    pfind (pput p k v) k = some v := by
  simp [pput, pfind]

theorem pfind_pput_ne (p : PDict) (k' k : String) (v : PVal) (h : k' ≠ k) :
    pfind (pput p k' v) k = pfind p k := by
  simp [pput, pfind, h]

/-! ## Key-preservation lemmas

Each processing step only writes a fixed set of record keys; lookups of
other keys pass through unchanged.  These lemmas let the claim proofs
reason about one field through the rest of the pipeline. -/

theorem tryFloatPresent_pfind (d : VDict) (src dst : String) (p : PDict) (k : String)
    (h : dst ≠ k) : pfind (tryFloatPresent d src dst p) k = pfind p k := by
  unfold tryFloatPresent
  split
  · rfl
  · split
    · rfl
    · exact pfind_pput_ne _ _ _ _ h

theorem tryFloatTruthy_pfind (d : VDict) (src dst : String) (p : PDict) (k : String)
    (h : dst ≠ k) : pfind (tryFloatTruthy d src dst p) k = pfind p k := by
  unfold tryFloatTruthy
  split
  · rfl
  · split
    · split
      · rfl
      · exact pfind_pput_ne _ _ _ _ h
    · rfl

theorem floatD0Abort_pfind (d : VDict) (src dst : String) (k : String) (h : dst ≠ k)
    (p q : PDict) (hq : ExcOut (floatD0Abort d src dst p) q) : pfind q k = pfind p k := by
  unfold ExcOut floatD0Abort at hq
  rcases hq with hq | hq <;> (repeat' split at hq) <;>
    (try injection hq with hq) <;> (try subst hq) <;> simp_all [pput, pfind]

theorem floatPresentAbort_pfind (d : VDict) (src dst : String) (k : String) (h : dst ≠ k)
    (p q : PDict) (hq : ExcOut (floatPresentAbort d src dst p) q) : pfind q k = pfind p k := by
  unfold ExcOut floatPresentAbort at hq
  rcases hq with hq | hq <;> (repeat' split at hq) <;>
    (try injection hq with hq) <;> (try subst hq) <;> simp_all [pput, pfind]

theorem floatNeZeroAbort_pfind (d : VDict) (src dst : String) (k : String) (h : dst ≠ k)
    (p q : PDict) (hq : ExcOut (floatNeZeroAbort d src dst p) q) : pfind q k = pfind p k := by
  unfold ExcOut floatNeZeroAbort at hq
  rcases hq with hq | hq <;> (repeat' split at hq) <;>
    (try injection hq with hq) <;> (try subst hq) <;> simp_all [pput, pfind]

theorem excSeq_pfind {k : String} {e : Except PDict PDict} {f : PDict → Except PDict PDict}
    {p q : PDict}
    (he : ∀ q', ExcOut e q' → pfind q' k = pfind p k)
    (hf : ∀ p' q', ExcOut (f p') q' → pfind q' k = pfind p' k)
    (hq : ExcOut (excSeq e f) q) : pfind q k = pfind p k := by
  unfold excSeq at hq
  cases e with
  | error r =>
    rcases hq with hq | hq
    · rw [Except.error.injEq] at hq
      subst hq
      exact he _ (Or.inl rfl)
    · exact absurd hq (by simp)
  | ok r =>
    have h1 : pfind q k = pfind r k := hf r q hq
    exact h1.trans (he r (Or.inr rfl))

theorem batterySegTemp_pfind (data : VDict) (k : String)
    (h1 : ("battery_temp" : String) ≠ k) (h2 : ("sink_temp" : String) ≠ k)
    (p q : PDict) (hq : ExcOut (batterySegTemp data p) q) : pfind q k = pfind p k := by
  unfold batterySegTemp at hq
  exact excSeq_pfind (fun q' h => floatNeZeroAbort_pfind _ _ _ _ h1 _ _ h)
    (fun p' q' h => floatNeZeroAbort_pfind _ _ _ _ h2 _ _ h) hq

theorem batterySegEnergy1_pfind (data : VDict) (k : String)
    (h1 : ("today_battery_charge" : String) ≠ k)
    (h2 : ("today_battery_discharge" : String) ≠ k)
    (p q : PDict) (hq : ExcOut (batterySegEnergy1 data p) q) : pfind q k = pfind p k := by
  unfold batterySegEnergy1 at hq
  exact excSeq_pfind (fun q' h => floatD0Abort_pfind _ _ _ _ h1 _ _ h)
    (fun p' q' h => floatD0Abort_pfind _ _ _ _ h2 _ _ h) hq

theorem batterySegEnergy2_pfind (data : VDict) (k : String)
    (h1 : ("total_battery_charge" : String) ≠ k)
    (h2 : ("total_battery_discharge" : String) ≠ k)
    (p q : PDict) (hq : ExcOut (batterySegEnergy2 data p) q) : pfind q k = pfind p k := by
  unfold batterySegEnergy2 at hq
  exact excSeq_pfind (fun q' h => floatPresentAbort_pfind _ _ _ _ h1 _ _ h)
    (fun p' q' h => floatPresentAbort_pfind _ _ _ _ h2 _ _ h) hq

theorem batterySegEnergy3_pfind (data : VDict) (k : String)
    (h1 : ("today_load_energy" : String) ≠ k)
    (h2 : ("today_pv_energy" : String) ≠ k)
    (h3 : ("total_pv_energy" : String) ≠ k)
    (p q : PDict) (hq : ExcOut (batterySegEnergy3 data p) q) : pfind q k = pfind p k := by
  unfold batterySegEnergy3 at hq
  exact excSeq_pfind (fun q' h => floatD0Abort_pfind _ _ _ _ h1 _ _ h)
    (fun p' q' h => excSeq_pfind (fun q'' h' => floatD0Abort_pfind _ _ _ _ h2 _ _ h')
      (fun p'' q'' h' => floatD0Abort_pfind _ _ _ _ h3 _ _ h') h) hq

theorem batterySegGrid1_pfind (data : VDict) (k : String)
    (h1 : ("today_grid_export_energy" : String) ≠ k)
    (h2 : ("today_grid_import_energy" : String) ≠ k)
    (p q : PDict) (hq : ExcOut (batterySegGrid1 data p) q) : pfind q k = pfind p k := by
  unfold batterySegGrid1 at hq
  exact excSeq_pfind (fun q' h => floatD0Abort_pfind _ _ _ _ h1 _ _ h)
    (fun p' q' h => floatD0Abort_pfind _ _ _ _ h2 _ _ h) hq

theorem batterySegPv_pfind (data : VDict) (k : String)
    (h : ("total_pv_power_calculated" : String) ≠ k) (p : PDict) :
    pfind (batterySegPv data p) k = pfind p k := by
  unfold batterySegPv
  exact tryFloatPresent_pfind _ _ _ _ _ h

theorem batterySegGrid2_pfind (data : VDict) (k : String)
    (h1 : ("total_grid_export" : String) ≠ k)
    (h2 : ("total_grid_import" : String) ≠ k)
    (h3 : ("total_load_energy" : String) ≠ k) (p : PDict) :
    pfind (batterySegGrid2 data p) k = pfind p k := by
  unfold batterySegGrid2
  rw [tryFloatPresent_pfind _ _ _ _ _ h3, tryFloatPresent_pfind _ _ _ _ _ h2,
    tryFloatPresent_pfind _ _ _ _ _ h1]

theorem batterySegMode_pfind (data : VDict) (k : String)
    (h1 : ("operating_mode" : String) ≠ k)
    (h2 : ("operating_status" : String) ≠ k) (p : PDict) :
    pfind (batterySegMode data p) k = pfind p k := by
  unfold batterySegMode
  split
  · rfl
  · split
    · rfl
    · rw [pfind_pput_ne _ _ _ _ h2, pfind_pput_ne _ _ _ _ h1]

theorem batterySegAnnual_pfind (data : VDict) (doy : Nat) (k : String)
    (h1 : ("estimated_annual_production" : String) ≠ k)
    (h2 : ("estimated_annual_savings" : String) ≠ k) (p : PDict) :
    pfind (batterySegAnnual data doy p) k = pfind p k := by
  unfold batterySegAnnual
  split
  · rfl
  · split
    · rfl
    · split
      · rw [pfind_pput_ne _ _ _ _ h2, pfind_pput_ne _ _ _ _ h1]
      · rfl


theorem batteryTail_pfind (data : VDict) (doy : Nat) (p : PDict) (k : String)
    (h : k ∉ batteryTailKeys) : pfind (batteryTail data doy p) k = pfind p k := by
  simp only [batteryTailKeys, List.mem_cons, List.not_mem_nil, or_false, not_or] at h
  obtain ⟨n1, n2, n3, n4, n5, n6, n7, n8, n9, n10, n11, n12, n13, n14, n15, n16, n17,
    n18, n19⟩ := h
  unfold batteryTail
  cases hs : batterySegTemp data p with
  | error q1 => exact batterySegTemp_pfind data k (Ne.symm n1) (Ne.symm n2) p q1 (Or.inl hs)
  | ok p1 =>
  dsimp only
  have e1 : pfind p1 k = pfind p k :=
    batterySegTemp_pfind data k (Ne.symm n1) (Ne.symm n2) p p1 (Or.inr hs)
  cases hs2 : batterySegEnergy1 data p1 with
  | error q2 =>
    exact (batterySegEnergy1_pfind data k (Ne.symm n3) (Ne.symm n4) p1 q2 (Or.inl hs2)).trans e1
  | ok p2 =>
  dsimp only
  have e2 : pfind p2 k = pfind p k :=
    (batterySegEnergy1_pfind data k (Ne.symm n3) (Ne.symm n4) p1 p2 (Or.inr hs2)).trans e1
  cases hs3 : batterySegEnergy2 data p2 with
  | error q3 =>
    exact (batterySegEnergy2_pfind data k (Ne.symm n5) (Ne.symm n6) p2 q3 (Or.inl hs3)).trans e2
  | ok p3 =>
  dsimp only
  have e3 : pfind p3 k = pfind p k :=
    (batterySegEnergy2_pfind data k (Ne.symm n5) (Ne.symm n6) p2 p3 (Or.inr hs3)).trans e2
  cases hs4 : batterySegEnergy3 data p3 with
  | error q4 =>
    exact (batterySegEnergy3_pfind data k (Ne.symm n7) (Ne.symm n8) (Ne.symm n9) p3 q4
      (Or.inl hs4)).trans e3
  | ok p4 =>
  dsimp only
  have e4 : pfind p4 k = pfind p k :=
    (batterySegEnergy3_pfind data k (Ne.symm n7) (Ne.symm n8) (Ne.symm n9) p3 p4
      (Or.inr hs4)).trans e3
  have e5 : pfind (batterySegPv data p4) k = pfind p k :=
    (batterySegPv_pfind data k (Ne.symm n10) p4).trans e4
  cases hs6 : batterySegGrid1 data (batterySegPv data p4) with
  | error q6 =>
    exact (batterySegGrid1_pfind data k (Ne.symm n11) (Ne.symm n12) _ q6 (Or.inl hs6)).trans e5
  | ok p6 =>
  dsimp only
  have e6 : pfind p6 k = pfind p k :=
    (batterySegGrid1_pfind data k (Ne.symm n11) (Ne.symm n12) _ p6 (Or.inr hs6)).trans e5
  rw [batterySegAnnual_pfind data doy k (Ne.symm n18) (Ne.symm n19),
    batterySegMode_pfind data k (Ne.symm n16) (Ne.symm n17),
    batterySegGrid2_pfind data k (Ne.symm n13) (Ne.symm n14) (Ne.symm n15)]
  exact e6

/-! ## Solar-section preservation and value lemmas -/

theorem floatTruthyAbort_pfind (d : VDict) (src dst : String) (k : String) (h : dst ≠ k)
    (p q : PDict) (hq : ExcOut (floatTruthyAbort d src dst p) q) : pfind q k = pfind p k := by
  unfold ExcOut floatTruthyAbort at hq
  rcases hq with hq | hq <;> (repeat' split at hq) <;>
    (try injection hq with hq) <;> (try subst hq) <;> simp_all [pput, pfind]

theorem runExc_pfind {e : Except PDict PDict} {p : PDict} {k : String}
    (h : ∀ q, ExcOut e q → pfind q k = pfind p k) : pfind (runExc e) k = pfind p k := by
  cases e with
  | error q => exact h q (Or.inl rfl)
  | ok q => exact h q (Or.inr rfl)

theorem excSeqP_pfind {k : String} {e : Except PDict (PDict × Rat)}
    {f : PDict → Rat → Except PDict (PDict × Rat)} {p q : PDict}
    (he : ∀ q', PExcOut e q' → pfind q' k = pfind p k)
    (hf : ∀ p' t' q', PExcOut (f p' t') q' → pfind q' k = pfind p' k)
    (hq : PExcOut (excSeqP e f) q) : pfind q k = pfind p k := by
  unfold excSeqP at hq
  cases e with
  | error r =>
    rcases hq with hq | ⟨t, hq⟩
    · rw [Except.error.injEq] at hq
      subst hq
      exact he _ (Or.inl rfl)
    · exact absurd hq (by simp)
  | ok pr =>
    obtain ⟨r, t⟩ := pr
    exact (hf r t q hq).trans (he r (Or.inr ⟨t, rfl⟩))

theorem liftP_pfind {k : String} {e : Except PDict PDict} {t : Rat} {p q : PDict}
    (he : ∀ q', ExcOut e q' → pfind q' k = pfind p k)
    (hq : PExcOut (liftP e t) q) : pfind q k = pfind p k := by
  unfold liftP at hq
  cases e with
  | error r =>
    rcases hq with hq | ⟨t', hq⟩
    · rw [Except.error.injEq] at hq
      subst hq
      exact he _ (Or.inl rfl)
    · exact absurd hq (by simp)
  | ok r =>
    rcases hq with hq | ⟨t', hq⟩
    · exact absurd hq (by simp)
    · rw [Except.ok.injEq, Prod.mk.injEq] at hq
      obtain ⟨hq, -⟩ := hq
      subst hq
      exact he _ (Or.inr rfl)

theorem phasePowerStep_pfind (data : VDict) (ph : String) (k : String)
    (h : (ph ++ "_phase_power") ≠ k) (p : PDict) (t : Rat) (q : PDict)
    (hq : PExcOut (phasePowerStep data ph p t) q) : pfind q k = pfind p k := by
  unfold PExcOut phasePowerStep at hq
  rcases hq with hq | ⟨t', hq⟩ <;> (repeat' split at hq) <;>
    (try injection hq with hq) <;> (try rw [Prod.mk.injEq] at hq) <;>
    (try obtain ⟨hq, -⟩ := hq) <;> (try subst hq) <;>
    simp_all [pput, pfind]

theorem phaseBlock_pfind (data : VDict) (ph : String) (k : String)
    (h1 : (ph ++ "_phase_power") ≠ k) (h2 : (ph ++ "_phase_voltage") ≠ k)
    (h3 : (ph ++ "_phase_current") ≠ k) (h4 : (ph ++ "_phase_frequency") ≠ k)
    (p : PDict) (t : Rat) (q : PDict)
    (hq : PExcOut (phaseBlock data ph p t) q) : pfind q k = pfind p k := by
  unfold phaseBlock at hq
  refine excSeqP_pfind (fun q' h => phasePowerStep_pfind data ph k h1 p t q' h) ?_ hq
  intro p1 t1 q1 hq1
  refine excSeqP_pfind
    (fun q' h => liftP_pfind (fun q'' h' => floatTruthyAbort_pfind _ _ _ _ h2 _ _ h') h) ?_ hq1
  intro p2 t2 q2 hq2
  refine excSeqP_pfind
    (fun q' h => liftP_pfind (fun q'' h' => floatTruthyAbort_pfind _ _ _ _ h3 _ _ h') h) ?_ hq2
  intro p3 t3 q3 hq3
  exact liftP_pfind (fun q'' h' => floatTruthyAbort_pfind _ _ _ _ h4 _ _ h') hq3


theorem solarPhaseSection_pfind (data : VDict) (p : PDict) (k : String)
    (h : k ∉ phaseKeys) : pfind (solarPhaseSection data p) k = pfind p k := by
  simp only [phaseKeys, List.mem_cons, List.not_mem_nil, or_false, not_or] at h
  obtain ⟨a1, a2, a3, a4, b1, b2, b3, b4, c1, c2, c3, c4, d1⟩ := h
  have er1 : ("r" ++ "_phase_power" : String) ≠ k := by
    intro hc; exact a1 (hc ▸ rfl)
  have er2 : ("r" ++ "_phase_voltage" : String) ≠ k := by
    intro hc; exact a2 (hc ▸ rfl)
  have er3 : ("r" ++ "_phase_current" : String) ≠ k := by
    intro hc; exact a3 (hc ▸ rfl)
  have er4 : ("r" ++ "_phase_frequency" : String) ≠ k := by
    intro hc; exact a4 (hc ▸ rfl)
  have es1 : ("s" ++ "_phase_power" : String) ≠ k := by
    intro hc; exact b1 (hc ▸ rfl)
  have es2 : ("s" ++ "_phase_voltage" : String) ≠ k := by
    intro hc; exact b2 (hc ▸ rfl)
  have es3 : ("s" ++ "_phase_current" : String) ≠ k := by
    intro hc; exact b3 (hc ▸ rfl)
  have es4 : ("s" ++ "_phase_frequency" : String) ≠ k := by
    intro hc; exact b4 (hc ▸ rfl)
  have et1 : ("t" ++ "_phase_power" : String) ≠ k := by
    intro hc; exact c1 (hc ▸ rfl)
  have et2 : ("t" ++ "_phase_voltage" : String) ≠ k := by
    intro hc; exact c2 (hc ▸ rfl)
  have et3 : ("t" ++ "_phase_current" : String) ≠ k := by
    intro hc; exact c3 (hc ▸ rfl)
  have et4 : ("t" ++ "_phase_frequency" : String) ≠ k := by
    intro hc; exact c4 (hc ▸ rfl)
  unfold solarPhaseSection
  cases hb : phaseBlock data "r" p 0 with
  | error q => exact phaseBlock_pfind data "r" k er1 er2 er3 er4 p 0 q (Or.inl hb)
  | ok pr =>
  obtain ⟨p1, t1⟩ := pr
  dsimp only
  have e1 : pfind p1 k = pfind p k :=
    phaseBlock_pfind data "r" k er1 er2 er3 er4 p 0 p1 (Or.inr ⟨t1, hb⟩)
  cases hb2 : phaseBlock data "s" p1 t1 with
  | error q =>
    exact (phaseBlock_pfind data "s" k es1 es2 es3 es4 p1 t1 q (Or.inl hb2)).trans e1
  | ok pr2 =>
  obtain ⟨p2, t2⟩ := pr2
  dsimp only
  have e2 : pfind p2 k = pfind p k :=
    (phaseBlock_pfind data "s" k es1 es2 es3 es4 p1 t1 p2 (Or.inr ⟨t2, hb2⟩)).trans e1
  cases hb3 : phaseBlock data "t" p2 t2 with
  | error q =>
    exact (phaseBlock_pfind data "t" k et1 et2 et3 et4 p2 t2 q (Or.inl hb3)).trans e2
  | ok pr3 =>
  obtain ⟨p3, t3⟩ := pr3
  dsimp only
  have e3 : pfind p3 k = pfind p k :=
    (phaseBlock_pfind data "t" k et1 et2 et3 et4 p2 t2 p3 (Or.inr ⟨t3, hb3⟩)).trans e2
  rw [pfind_pput_ne _ _ _ _ (Ne.symm d1)]
  exact e3

theorem solarTempSection_pfind (data : VDict) (p : PDict) (k : String)
    (h1 : ("inverter_temp" : String) ≠ k) (h2 : ("sink_temp" : String) ≠ k) :
    pfind (solarTempSection data p) k = pfind p k := by
  unfold solarTempSection
  exact runExc_pfind (fun q hq => excSeq_pfind
    (fun q' h => floatTruthyAbort_pfind _ _ _ _ h1 _ _ h)
    (fun p' q' h => floatTruthyAbort_pfind _ _ _ _ h2 _ _ h) hq)

theorem pvPowerStep_pfind_fst (data : VDict) (i : Nat) (k : String)
    (h : ("pv" ++ toString i ++ "_power") ≠ k) (acc : PDict × Rat) :
    pfind (pvPowerStep data acc i).1 k = pfind acc.1 k := by
  unfold pvPowerStep
  (repeat' split) <;> simp_all [pput, pfind]

theorem pvPowerFold_pfind (data : VDict) (l : List Nat) (k : String)
    (h : ∀ i ∈ l, ("pv" ++ toString i ++ "_power") ≠ k) (acc : PDict × Rat) :
    pfind (l.foldl (pvPowerStep data) acc).1 k = pfind acc.1 k := by
  induction l generalizing acc with
  | nil => rfl
  | cons i rest ih =>
    simp only [List.foldl_cons]
    rw [ih (fun j hj => h j (List.mem_cons_of_mem _ hj)) (pvPowerStep data acc i)]
    exact pvPowerStep_pfind_fst data i k (h i (List.mem_cons_self _ _)) acc

theorem pvVoltCurrStep_pfind (data : VDict) (i : Nat) (k : String)
    (h1 : ("pv" ++ toString i ++ "_voltage") ≠ k)
    (h2 : ("pv" ++ toString i ++ "_current") ≠ k) (p : PDict) :
    pfind (pvVoltCurrStep data p i) k = pfind p k := by
  unfold pvVoltCurrStep
  rw [tryFloatTruthy_pfind _ _ _ _ _ h2, tryFloatTruthy_pfind _ _ _ _ _ h1]

theorem pvVoltCurrFold_pfind (data : VDict) (l : List Nat) (k : String)
    (h : ∀ i ∈ l,
      ("pv" ++ toString i ++ "_voltage") ≠ k ∧ ("pv" ++ toString i ++ "_current") ≠ k)
    (p : PDict) : pfind (l.foldl (pvVoltCurrStep data) p) k = pfind p k := by
  induction l generalizing p with
  | nil => rfl
  | cons i rest ih =>
    simp only [List.foldl_cons]
    rw [ih (fun j hj => h j (List.mem_cons_of_mem _ hj)),
      pvVoltCurrStep_pfind data i k (h i (List.mem_cons_self _ _)).1
        (h i (List.mem_cons_self _ _)).2]

theorem pvTotalDecision_pfind_ne (data : VDict) (t : Rat) (p : PDict) (k : String)
    (h : ("total_pv_power_calculated" : String) ≠ k) :
    pfind (pvTotalDecision data t p) k = pfind p k := by
  unfold pvTotalDecision
  (repeat' split) <;> simp_all [pput, pfind]

theorem solarDayPv_pfind (data : VDict) (p : PDict) (k : String)
    (hp : ∀ i ∈ pvIdx, ("pv" ++ toString i ++ "_power") ≠ k)
    (hvc : ∀ i ∈ pvIdx,
      ("pv" ++ toString i ++ "_voltage") ≠ k ∧ ("pv" ++ toString i ++ "_current") ≠ k)
    (ht : ("total_pv_power_calculated" : String) ≠ k) :
    pfind (solarDayPv data p) k = pfind p k := by
  unfold solarDayPv
  rw [pvTotalDecision_pfind_ne _ _ _ _ ht, pvVoltCurrFold_pfind _ _ _ hvc,
    pvPowerFold_pfind _ _ _ hp]

theorem solarGridSection_pfind_ne (night : Bool) (data : VDict) (lm : Option LoadMon)
    (p : PDict) (k : String)
    (h1 : ("grid_status_calculated" : String) ≠ k) (h2 : ("grid_power_abs" : String) ≠ k) :
    pfind (solarGridSection night data lm p) k = pfind p k := by
  unfold solarGridSection
  (repeat' split) <;> simp_all [pput, pfind]

theorem solarGridSection_skip (night : Bool) (data : VDict) (l : LoadMon) (p : PDict)
    (h : hasKey l.latest "buyPower" = false ∨ hasKey l.latest "sellPower" = false) :
    solarGridSection night data (some l) p = p := by
  unfold solarGridSection
  rcases h with h | h <;> simp [h]

theorem solarGridSection_lm (night : Bool) (data : VDict) (l : LoadMon) (p : PDict)
    (vb vs : Val) (b s : Rat)
    (hb : findVal l.latest "buyPower" = some vb) (hbf : vb.toFloat? = some b)
    (hs : findVal l.latest "sellPower" = some vs) (hsf : vs.toFloat? = some s) :
    solarGridSection night data (some l) p =
      pput (pput p "grid_status_calculated"
        (.s (if b - s < 0 then "exporting" else if b - s > 0 then "importing" else "idle")))
        "grid_power_abs" (.num |b - s|) := by
  unfold solarGridSection
  simp [hasKey, floatGetD, hb, hs, hbf, hsf]

theorem solarGridSection_fallback (data : VDict) (p : PDict) (v : Val) (g : Rat)
    (hv : findVal data "totalGridPowerWatt" = some v) (hg : v.toFloat? = some g) :
    solarGridSection false data none p =
      pput (pput p "grid_status_calculated"
        (.s (if g < 0 then "exporting" else if g > 0 then "importing" else "idle")))
        "grid_power_abs" (.num |g|) := by
  unfold solarGridSection
  simp [floatGetD, hv, hg]

theorem solarLoadSection_pfind_ne (night : Bool) (data : VDict) (lm : Option LoadMon)
    (p : PDict) (k : String) (h : ("home_load_power" : String) ≠ k) :
    pfind (solarLoadSection night data lm p) k = pfind p k := by
  unfold solarLoadSection
  (repeat' split) <;> simp_all [pput, pfind]

theorem plantAnnual_pfind (ps : VDict) (doy : Nat) (k : String)
    (h1 : ("estimated_annual_production" : String) ≠ k)
    (h2 : ("estimated_annual_savings" : String) ≠ k)
    (p q : PDict) (hq : ExcOut (plantAnnual ps doy p) q) : pfind q k = pfind p k := by
  unfold ExcOut plantAnnual at hq
  rcases hq with hq | hq <;> (repeat' split at hq) <;>
    (try injection hq with hq) <;> (try subst hq) <;> simp_all [pput, pfind]

theorem plantStatsSection_pfind (ps : VDict) (doy : Nat) (p : PDict) (k : String)
    (h1 : ("co2_reduction" : String) ≠ k) (h2 : ("equivalent_trees" : String) ≠ k)
    (h3 : ("estimated_annual_production" : String) ≠ k)
    (h4 : ("estimated_annual_savings" : String) ≠ k) :
    pfind (plantStatsSection ps doy p) k = pfind p k := by
  unfold plantStatsSection
  split
  · rfl
  · exact runExc_pfind (fun q hq => excSeq_pfind
      (fun q' h => floatPresentAbort_pfind _ _ _ _ h1 _ _ h)
      (fun p' q' h => excSeq_pfind
        (fun q'' h' => floatPresentAbort_pfind _ _ _ _ h2 _ _ h')
        (fun p'' q'' h' => plantAnnual_pfind _ _ _ h3 h4 _ _ h') h) hq)

theorem energyTodayPv_pfind_ne (night : Bool) (data : VDict) (p : PDict) (k : String)
    (h : ("today_pv_energy" : String) ≠ k) :
    pfind (energyTodayPv night data p) k = pfind p k := by
  unfold energyTodayPv
  (repeat' split) <;> simp_all [pput, pfind]

theorem energyTotalPv_pfind_ne (data : VDict) (ps : VDict) (p : PDict) (k : String)
    (h : ("total_pv_energy" : String) ≠ k) :
    pfind (energyTotalPv data ps p) k = pfind p k := by
  unfold energyTotalPv
  (repeat' split) <;> simp_all [pput, pfind]

theorem energyTodayExport_pfind_ne (night : Bool) (data : VDict) (p : PDict) (k : String)
    (h : ("today_grid_export_energy" : String) ≠ k) :
    pfind (energyTodayExport night data p) k = pfind p k := by
  unfold energyTodayExport
  (repeat' split) <;> simp_all [pput, pfind]

theorem energyTotalExport_pfind_ne (data : VDict) (ps : VDict) (p : PDict) (k : String)
    (h : ("total_grid_export" : String) ≠ k) :
    pfind (energyTotalExport data ps p) k = pfind p k := by
  unfold energyTotalExport
  (repeat' split) <;> simp_all [pput, pfind]

theorem energyLmBuy_pfind_ne (l : LoadMon) (p : PDict) (k : String)
    (h1 : ("total_grid_import" : String) ≠ k)
    (h2 : ("today_grid_import_energy" : String) ≠ k) :
    pfind (energyLmBuy l p) k = pfind p k := by
  unfold energyLmBuy
  (repeat' split) <;> simp_all [pput, pfind]

theorem energyLmSell_pfind_ne (l : LoadMon) (p : PDict) (k : String)
    (h1 : ("total_grid_export" : String) ≠ k)
    (h2 : ("today_grid_export_energy" : String) ≠ k) :
    pfind (energyLmSell l p) k = pfind p k := by
  unfold energyLmSell
  (repeat' split) <;> simp_all [pput, pfind]


theorem energyLmBlock_pfind_ne (lm : Option LoadMon) (p : PDict) (k : String)
    (h1 : ("today_pv_energy" : String) ≠ k) (h2 : ("total_load_energy" : String) ≠ k)
    (h3 : ("total_grid_import" : String) ≠ k) (h4 : ("today_grid_import_energy" : String) ≠ k)
    (h5 : ("total_grid_export" : String) ≠ k) (h6 : ("today_grid_export_energy" : String) ≠ k) :
    pfind (energyLmBlock lm p) k = pfind p k := by
  unfold energyLmBlock
  cases lm with
  | none => rfl
  | some l =>
    rw [energyLmSell_pfind_ne _ _ _ h5 h6, energyLmBuy_pfind_ne _ _ _ h3 h4]
    unfold energyLmLoad energyLmPv
    rw [tryFloatPresent_pfind _ _ _ _ _ h2, tryFloatPresent_pfind _ _ _ _ _ h1]

theorem solarEnergySection_pfind (night : Bool) (data : VDict) (lm : Option LoadMon)
    (ps : VDict) (p : PDict) (k : String) (h : k ∉ energyKeys) :
    pfind (solarEnergySection night data lm ps p) k = pfind p k := by
  simp only [energyKeys, List.mem_cons, List.not_mem_nil, or_false, not_or] at h
  obtain ⟨n1, n2, n3, n4, n5, n6, n7⟩ := h
  unfold solarEnergySection
  rw [energyLmBlock_pfind_ne _ _ _ (Ne.symm n1) (Ne.symm n5) (Ne.symm n6) (Ne.symm n7)
      (Ne.symm n4) (Ne.symm n3),
    energyTotalExport_pfind_ne _ _ _ _ (Ne.symm n4),
    energyTodayExport_pfind_ne _ _ _ _ (Ne.symm n3),
    energyTotalPv_pfind_ne _ _ _ _ (Ne.symm n2),
    energyTodayPv_pfind_ne _ _ _ _ (Ne.symm n1)]

/-! ## Value lemmas and pipeline reductions used by the claim proofs -/

theorem genericTempSection_pfind (data : VDict) (p : PDict) (k : String)
    (h1 : ("inverter_temp" : String) ≠ k) (h2 : ("sink_temp" : String) ≠ k) :
    pfind (genericTempSection data p) k = pfind p k := by
  unfold genericTempSection
  split
  · exact runExc_pfind (fun q hq => excSeq_pfind
      (fun q' h => floatTruthyAbort_pfind _ _ _ _ h1 _ _ h)
      (fun p' q' h => floatTruthyAbort_pfind _ _ _ _ h2 _ _ h) hq)
  · rfl

theorem tryFloatPresent_pfind_eq (d : VDict) (src dst : String) (p : PDict) (v : Val) (q : Rat)
    (hv : findVal d src = some v) (hf : v.toFloat? = some q) :
    pfind (tryFloatPresent d src dst p) dst = some (.num q) := by
  unfold tryFloatPresent
  simp only [hv, hf]
  exact pfind_pput _ _ _

theorem energyTotalPv_pfind_eq (data ps : VDict) (p : PDict) (v : Val) (q : Rat)
    (hv : findVal data "totalPvEnergy" = some v) (hf : v.toFloat? = some q) :
    pfind (energyTotalPv data ps p) "total_pv_energy" = some (.num q) := by
  unfold energyTotalPv
  simp only [hv, hf]
  exact pfind_pput _ _ _

theorem energyTotalExport_pfind_eq (data ps : VDict) (p : PDict) (v : Val) (q : Rat)
    (hv : findVal data "totalSellEnergy" = some v) (hf : v.toFloat? = some q) :
    pfind (energyTotalExport data ps p) "total_grid_export" = some (.num q) := by
  unfold energyTotalExport
  simp only [hv, hf]
  exact pfind_pput _ _ _

theorem energyLmSell_total_preserved (l : LoadMon) (p : PDict) (w : PVal)
    (hw : pfind p "total_grid_export" = some w) :
    pfind (energyLmSell l p) "total_grid_export" = some w := by
  unfold energyLmSell
  (repeat' split) <;> simp_all [phas, pput, pfind]

theorem pvTotalDecision_pfind_eq (data : VDict) (t : Rat) (p : PDict) (v : Val) (rt : Rat)
    (hv : findVal data "totalPVPower" = some v) (hf : v.toFloat? = some rt) :
    pfind (pvTotalDecision data t p) "total_pv_power_calculated" =
      some (.num (if rt > 0 then rt else if t > 0 then t else 0)) := by
  unfold pvTotalDecision
  simp only [hv, hf]
  split <;> simp_all [pput, pfind]

theorem batteryHistoryBlock_status (data : VDict) (p : PDict) (bp : Rat)
    (h : floatGetD data "batPower" = some bp) :
    pfind (batteryHistoryBlock data p) "battery_status_calculated" =
      some (.s (if bp > 0 then "Discharging" else if bp < 0 then "Charging" else "Standby")) := by
  unfold batteryHistoryBlock
  simp only [h]
  rw [pfind_pput_ne _ _ _ _ (by decide)]
  exact pfind_pput _ _ _


theorem processSolar_post_pfind (data : VDict) (night : Bool) (lm : Option LoadMon)
    (ps : VDict) (doy : Nat) (k : String) (h : k ∉ afterGridKeys) :
    pfind (processSolarData data night lm ps doy) k =
      pfind (solarGridSection night data lm
        (if night then solarNightFill []
         else solarTempSection data (solarPhaseSection data (solarDayPv data [])))) k := by
  simp only [afterGridKeys, List.mem_cons, List.not_mem_nil, or_false, not_or] at h
  obtain ⟨l1, p1, p2, p3, p4, e1, e2, e3, e4, e5, e6, e7⟩ := h
  unfold processSolarData
  rw [solarEnergySection_pfind _ _ _ _ _ _ (by
      simp only [energyKeys, List.mem_cons, List.not_mem_nil, or_false, not_or]
      exact ⟨e1, e2, e3, e4, e5, e6, e7⟩),
    plantStatsSection_pfind _ _ _ _ (Ne.symm p1) (Ne.symm p2) (Ne.symm p3) (Ne.symm p4),
    solarLoadSection_pfind_ne _ _ _ _ _ (Ne.symm l1)]

theorem processSolar_night_pfind (data : VDict) (lm : Option LoadMon) (ps : VDict)
    (doy : Nat) (k : String) (h : k ∉ afterGridKeys)
    (hgrid : ("grid_status_calculated" : String) ≠ k ∧ ("grid_power_abs" : String) ≠ k) :
    pfind (processSolarData data true lm ps doy) k = pfind (solarNightFill []) k := by
  rw [processSolar_post_pfind data true lm ps doy k h,
    solarGridSection_pfind_ne _ _ _ _ _ hgrid.1 hgrid.2]
  simp only [if_true]

theorem processSolar_day_totalpv (data : VDict) (lm : Option LoadMon) (ps : VDict)
    (doy : Nat) :
    pfind (processSolarData data false lm ps doy) "total_pv_power_calculated" =
      pfind (solarDayPv data []) "total_pv_power_calculated" := by
  rw [processSolar_post_pfind data false lm ps doy _ (by decide),
    solarGridSection_pfind_ne _ _ _ _ _ (by decide) (by decide)]
  simp only [Bool.false_eq_true, if_false]
  rw [solarTempSection_pfind _ _ _ (by decide) (by decide),
    solarPhaseSection_pfind _ _ _ (by decide)]

/-- The direction string of the solar grid computation characterized by
the sign of the net value. -/
theorem signDir_iff (x : Rat) :
    ((if x < 0 then "exporting" else if x > 0 then "importing" else "idle") = "importing"
        ↔ 0 < x) ∧
    ((if x < 0 then "exporting" else if x > 0 then "importing" else "idle") = "exporting"
        ↔ x < 0) ∧
    ((if x < 0 then "exporting" else if x > 0 then "importing" else "idle") = "idle"
        ↔ x = 0) := by
  rcases lt_trichotomy x 0 with h | h | h
  · rw [if_pos h]
    refine ⟨⟨fun hc => absurd hc (by decide), fun hc => absurd hc (asymm h)⟩,
      ⟨fun _ => h, fun _ => rfl⟩,
      ⟨fun hc => absurd hc (by decide), fun hc => absurd hc (ne_of_lt h)⟩⟩
  · subst h
    decide
  · rw [if_neg (asymm h), if_pos h]
    refine ⟨⟨fun _ => h, fun _ => rfl⟩,
      ⟨fun hc => absurd hc (by decide), fun hc => absurd hc (asymm h)⟩,
      ⟨fun hc => absurd hc (by decide), fun hc => absurd hc (ne_of_gt h)⟩⟩

/-- The battery realtime path always reports grid_power_abs as the
absolute value of the (defaulted) sysGridPowerWatt reading, whatever
happens later in the body. -/
theorem processBattery_gridAbs (data : VDict) (doy : Nat) (g : Rat)
    (hg : floatGetD data "sysGridPowerWatt" = some g) :
    pfind (processBatteryRealtimeData data doy) "grid_power_abs" = some (.num |g|) := by
  unfold processBatteryRealtimeData
  simp only [hg]
  cases h2 : intGetD data "gridDirection" with
  | none => exact pfind_pput _ _ _
  | some gd =>
  dsimp only
  cases h3 : floatGetD data "sysTotalLoadWatt" with
  | none => rw [pfind_pput_ne _ _ _ _ (by decide)]; exact pfind_pput _ _ _
  | some load =>
  dsimp only
  cases h4 : floatGetD data "batPower" with
  | none =>
    rw [pfind_pput_ne _ _ _ _ (by decide), pfind_pput_ne _ _ _ _ (by decide)]
    exact pfind_pput _ _ _
  | some bp =>
  dsimp only
  cases h5 : floatGetD data "batEnergyPercent" with
  | none =>
    rw [pfind_pput_ne _ _ _ _ (by decide), pfind_pput_ne _ _ _ _ (by decide)]
    exact pfind_pput _ _ _
  | some bl =>
  dsimp only
  cases h6 : intGetD data "batteryDirection" with
  | none =>
    rw [pfind_pput_ne _ _ _ _ (by decide), pfind_pput_ne _ _ _ _ (by decide),
      pfind_pput_ne _ _ _ _ (by decide), pfind_pput_ne _ _ _ _ (by decide)]
    exact pfind_pput _ _ _
  | some bd =>
  dsimp only
  rw [batteryTail_pfind _ _ _ _ (by decide),
    pfind_pput_ne _ _ _ _ (by decide), pfind_pput_ne _ _ _ _ (by decide),
    pfind_pput_ne _ _ _ _ (by decide), pfind_pput_ne _ _ _ _ (by decide),
    pfind_pput_ne _ _ _ _ (by decide)]
  exact pfind_pput _ _ _

/-- The battery realtime path reports the grid status from the direction
code alone. -/
theorem processBattery_gridStatus (data : VDict) (doy : Nat) (g : Rat) (gd : Int)
    (hg : floatGetD data "sysGridPowerWatt" = some g)
    (hgd : intGetD data "gridDirection" = some gd) :
    pfind (processBatteryRealtimeData data doy) "grid_status_calculated" =
      some (.s (if gd = 1 then "exporting" else if gd = -1 then "importing" else "idle")) := by
  unfold processBatteryRealtimeData
  simp only [hg, hgd]
  cases h3 : floatGetD data "sysTotalLoadWatt" with
  | none => exact pfind_pput _ _ _
  | some load =>
  dsimp only
  cases h4 : floatGetD data "batPower" with
  | none => rw [pfind_pput_ne _ _ _ _ (by decide)]; exact pfind_pput _ _ _
  | some bp =>
  dsimp only
  cases h5 : floatGetD data "batEnergyPercent" with
  | none => rw [pfind_pput_ne _ _ _ _ (by decide)]; exact pfind_pput _ _ _
  | some bl =>
  dsimp only
  cases h6 : intGetD data "batteryDirection" with
  | none =>
    rw [pfind_pput_ne _ _ _ _ (by decide), pfind_pput_ne _ _ _ _ (by decide),
      pfind_pput_ne _ _ _ _ (by decide)]
    exact pfind_pput _ _ _
  | some bd =>
  dsimp only
  rw [batteryTail_pfind _ _ _ _ (by decide),
    pfind_pput_ne _ _ _ _ (by decide), pfind_pput_ne _ _ _ _ (by decide),
    pfind_pput_ne _ _ _ _ (by decide), pfind_pput_ne _ _ _ _ (by decide)]
  exact pfind_pput _ _ _

/-- The battery realtime status when all core conversions succeed. -/
theorem processBattery_status (data : VDict) (doy : Nat) (g ld bp bl : Rat) (gd bd : Int)
    (hg : floatGetD data "sysGridPowerWatt" = some g)
    (hgd : intGetD data "gridDirection" = some gd)
    (hld : floatGetD data "sysTotalLoadWatt" = some ld)
    (hbp : floatGetD data "batPower" = some bp)
    (hbl : floatGetD data "batEnergyPercent" = some bl)
    (hbd : intGetD data "batteryDirection" = some bd) :
    pfind (processBatteryRealtimeData data doy) "battery_status_calculated" =
      some (.s (if bd = 0 then "Standby"
        else if bp > 0 then "Discharging" else "Charging")) := by
  unfold processBatteryRealtimeData
  simp only [hg, hgd, hld, hbp, hbl, hbd]
  rw [batteryTail_pfind _ _ _ _ (by decide)]
  exact pfind_pput _ _ _

/-! ## Claim theorems -/

/-- C1 counterexample: for the Scenario A payload
{sysGridPowerWatt: -500, gridDirection: 1, batPower: 200,
batteryDirection: -1, batEnergyPercent: 77} the code reports
battery_status_calculated = "Discharging", not the claimed "Charging":
the charge/discharge split comes from the sign of batPower, and the
direction code only selects Standby. -/
theorem C1_counterexample :
    pfind (processBatteryRealtimeData scenarioAData 100) "battery_status_calculated" ≠
      some (PVal.s "Charging") := by decide

/-- C1 amended: Scenario A yields grid_status_calculated = "exporting",
grid_power_abs = 500, battery_power_abs = 200, battery_level = 77, and
battery_status_calculated = "Discharging". -/
theorem C1_scenarioA_amended :
    pfind (processBatteryRealtimeData scenarioAData 100) "grid_status_calculated" =
        some (PVal.s "exporting") ∧
    pfind (processBatteryRealtimeData scenarioAData 100) "grid_power_abs" =
        some (PVal.num 500) ∧
    pfind (processBatteryRealtimeData scenarioAData 100) "battery_status_calculated" =
        some (PVal.s "Discharging") ∧
    pfind (processBatteryRealtimeData scenarioAData 100) "battery_power_abs" =
        some (PVal.num 200) ∧
    pfind (processBatteryRealtimeData scenarioAData 100) "battery_level" =
        some (PVal.num 77) := by decide

/-- C2 counterexample: a payload reporting pv3power is reconciled with
pv3_power present by day but absent in NIGHTTIME mode — the nighttime
zero-fill loops only over PV1 and PV2 (range(1, 3), line 591) while the
daytime loop scans channels 1..16 (line 613), so not every pv{i}_power
is substituted with 0 and the record shape is not stable across the
day/night transition for a device with more than two strings. -/
theorem C2_counterexample :
    pfind (processSolarData pv3Data false none [] 1) "pv3_power" = some (PVal.num 25) ∧
    pfind (processSolarData pv3Data true none [] 1) "pv3_power" = none := by
  constructor
  · rw [processSolar_post_pfind _ _ _ _ _ _ (by decide),
      solarGridSection_pfind_ne _ _ _ _ _ (by decide) (by decide)]
    simp only [Bool.false_eq_true, if_false]
    rw [solarTempSection_pfind _ _ _ (by decide) (by decide),
      solarPhaseSection_pfind _ _ _ (by decide)]
    unfold solarDayPv
    rw [pvTotalDecision_pfind_ne _ _ _ _ (by decide),
      pvVoltCurrFold_pfind _ _ _ (by decide)]
    decide
  · rw [processSolar_night_pfind _ _ _ _ _ (by decide) ⟨by decide, by decide⟩]
    decide

/-- C2 amended: in NIGHTTIME mode the record carries PV1/PV2 power,
voltage and current, all twelve r/s/t phase readings, and the calculated
PV total, each present and equal to 0, whatever the payload, load
monitoring and plant statistics are; the remaining channels pv3_power
through pv16_power are left absent rather than substituted. -/
theorem C2_nighttime_zero_fill (data : VDict) (lm : Option LoadMon) (ps : VDict)
    (doy : Nat) :
    pfind (processSolarData data true lm ps doy) "total_pv_power_calculated" =
        some (PVal.num 0) ∧
    pfind (processSolarData data true lm ps doy) "pv1_power" = some (PVal.num 0) ∧
    pfind (processSolarData data true lm ps doy) "pv1_voltage" = some (PVal.num 0) ∧
    pfind (processSolarData data true lm ps doy) "pv1_current" = some (PVal.num 0) ∧
    pfind (processSolarData data true lm ps doy) "pv2_power" = some (PVal.num 0) ∧
    pfind (processSolarData data true lm ps doy) "pv2_voltage" = some (PVal.num 0) ∧
    pfind (processSolarData data true lm ps doy) "pv2_current" = some (PVal.num 0) ∧
    pfind (processSolarData data true lm ps doy) "r_phase_power" = some (PVal.num 0) ∧
    pfind (processSolarData data true lm ps doy) "r_phase_voltage" = some (PVal.num 0) ∧
    pfind (processSolarData data true lm ps doy) "r_phase_current" = some (PVal.num 0) ∧
    pfind (processSolarData data true lm ps doy) "r_phase_frequency" = some (PVal.num 0) ∧
    pfind (processSolarData data true lm ps doy) "s_phase_power" = some (PVal.num 0) ∧
    pfind (processSolarData data true lm ps doy) "s_phase_voltage" = some (PVal.num 0) ∧
    pfind (processSolarData data true lm ps doy) "s_phase_current" = some (PVal.num 0) ∧
    pfind (processSolarData data true lm ps doy) "s_phase_frequency" = some (PVal.num 0) ∧
    pfind (processSolarData data true lm ps doy) "t_phase_power" = some (PVal.num 0) ∧
    pfind (processSolarData data true lm ps doy) "t_phase_voltage" = some (PVal.num 0) ∧
    pfind (processSolarData data true lm ps doy) "t_phase_current" = some (PVal.num 0) ∧
    pfind (processSolarData data true lm ps doy) "t_phase_frequency" = some (PVal.num 0) ∧
    pfind (processSolarData data true lm ps doy) "pv3_power" = none ∧
    pfind (processSolarData data true lm ps doy) "pv4_power" = none ∧
    pfind (processSolarData data true lm ps doy) "pv5_power" = none ∧
    pfind (processSolarData data true lm ps doy) "pv6_power" = none ∧
    pfind (processSolarData data true lm ps doy) "pv7_power" = none ∧
    pfind (processSolarData data true lm ps doy) "pv8_power" = none ∧
    pfind (processSolarData data true lm ps doy) "pv9_power" = none ∧
    pfind (processSolarData data true lm ps doy) "pv10_power" = none ∧
    pfind (processSolarData data true lm ps doy) "pv11_power" = none ∧
    pfind (processSolarData data true lm ps doy) "pv12_power" = none ∧
    pfind (processSolarData data true lm ps doy) "pv13_power" = none ∧
    pfind (processSolarData data true lm ps doy) "pv14_power" = none ∧
    pfind (processSolarData data true lm ps doy) "pv15_power" = none ∧
    pfind (processSolarData data true lm ps doy) "pv16_power" = none := by
  refine ⟨?_, ?_, ?_, ?_, ?_, ?_, ?_, ?_, ?_, ?_, ?_, ?_, ?_, ?_, ?_, ?_, ?_, ?_, ?_,
    ?_, ?_, ?_, ?_, ?_, ?_, ?_, ?_, ?_, ?_, ?_, ?_, ?_, ?_⟩ <;>
    (rw [processSolar_night_pfind _ _ _ _ _ (by decide) ⟨by decide, by decide⟩]; decide)

/-- C3 counterexample: the battery payload
{sysGridPowerWatt: 0, gridDirection: 1} is reconciled to
grid_status_calculated = "exporting" with grid_power_abs = 0, so a
zero net value is not reported as "idle" — the claimed sign equivalence
fails for the battery realtime source. -/
theorem C3_counterexample :
    pfind (processBatteryRealtimeData zeroGridExportData 1) "grid_power_abs" =
        some (PVal.num 0) ∧
    pfind (processBatteryRealtimeData zeroGridExportData 1) "grid_status_calculated" =
        some (PVal.s "exporting") := by decide

/-- C3 amended: the sign equivalence (importing iff net > 0, exporting
iff net < 0, idle iff net = 0, positive = importing) holds for both
solar grid sources — the load-monitoring buy − sell pair and the
totalGridPowerWatt fallback — while the battery realtime path takes its
status from the gridDirection code alone (1 exporting, -1 importing,
otherwise idle), irrespective of the magnitude. -/
theorem C3_grid_sign_amended :
    (∀ (data : VDict) (night : Bool) (l : LoadMon) (ps : VDict) (doy : Nat)
        (vb vs : Val) (b s : Rat),
      findVal l.latest "buyPower" = some vb → vb.toFloat? = some b →
      findVal l.latest "sellPower" = some vs → vs.toFloat? = some s →
      ((pfind (processSolarData data night (some l) ps doy) "grid_status_calculated" =
          some (PVal.s "importing") ↔ 0 < b - s) ∧
       (pfind (processSolarData data night (some l) ps doy) "grid_status_calculated" =
          some (PVal.s "exporting") ↔ b - s < 0) ∧
       (pfind (processSolarData data night (some l) ps doy) "grid_status_calculated" =
          some (PVal.s "idle") ↔ b - s = 0) ∧
       pfind (processSolarData data night (some l) ps doy) "grid_power_abs" =
          some (PVal.num |b - s|))) ∧
    (∀ (data ps : VDict) (doy : Nat) (v : Val) (g : Rat),
      findVal data "totalGridPowerWatt" = some v → v.toFloat? = some g →
      ((pfind (processSolarData data false none ps doy) "grid_status_calculated" =
          some (PVal.s "importing") ↔ 0 < g) ∧
       (pfind (processSolarData data false none ps doy) "grid_status_calculated" =
          some (PVal.s "exporting") ↔ g < 0) ∧
       (pfind (processSolarData data false none ps doy) "grid_status_calculated" =
          some (PVal.s "idle") ↔ g = 0) ∧
       pfind (processSolarData data false none ps doy) "grid_power_abs" =
          some (PVal.num |g|))) ∧
    (∀ (data : VDict) (doy : Nat) (g : Rat) (gd : Int),
      floatGetD data "sysGridPowerWatt" = some g →
      intGetD data "gridDirection" = some gd →
      pfind (processBatteryRealtimeData data doy) "grid_status_calculated" =
        some (PVal.s (if gd = 1 then "exporting"
          else if gd = -1 then "importing" else "idle"))) := by
  refine ⟨?_, ?_, ?_⟩
  · intro data night l ps doy vb vs b s hb hbf hs hsf
    have hred : pfind (processSolarData data night (some l) ps doy)
        "grid_status_calculated" =
        some (PVal.s (if b - s < 0 then "exporting"
          else if b - s > 0 then "importing" else "idle")) := by
      rw [processSolar_post_pfind _ _ _ _ _ _ (by decide),
        solarGridSection_lm night data l _ vb vs b s hb hbf hs hsf,
        pfind_pput_ne _ _ _ _ (by decide)]
      exact pfind_pput _ _ _
    have habs : pfind (processSolarData data night (some l) ps doy) "grid_power_abs" =
        some (PVal.num |b - s|) := by
      rw [processSolar_post_pfind _ _ _ _ _ _ (by decide),
        solarGridSection_lm night data l _ vb vs b s hb hbf hs hsf]
      exact pfind_pput _ _ _
    refine ⟨?_, ?_, ?_, habs⟩ <;> rw [hred] <;>
      simp only [Option.some.injEq, PVal.s.injEq]
    · exact (signDir_iff (b - s)).1
    · exact (signDir_iff (b - s)).2.1
    · exact (signDir_iff (b - s)).2.2
  · intro data ps doy v g hv hg
    have hred : pfind (processSolarData data false none ps doy)
        "grid_status_calculated" =
        some (PVal.s (if g < 0 then "exporting"
          else if g > 0 then "importing" else "idle")) := by
      rw [processSolar_post_pfind _ _ _ _ _ _ (by decide),
        solarGridSection_fallback data _ v g hv hg,
        pfind_pput_ne _ _ _ _ (by decide)]
      exact pfind_pput _ _ _
    have habs : pfind (processSolarData data false none ps doy) "grid_power_abs" =
        some (PVal.num |g|) := by
      rw [processSolar_post_pfind _ _ _ _ _ _ (by decide),
        solarGridSection_fallback data _ v g hv hg]
      exact pfind_pput _ _ _
    refine ⟨?_, ?_, ?_, habs⟩ <;> rw [hred] <;>
      simp only [Option.some.injEq, PVal.s.injEq]
    · exact (signDir_iff g).1
    · exact (signDir_iff g).2.1
    · exact (signDir_iff g).2.2
  · intro data doy g gd hg hgd
    exact processBattery_gridStatus data doy g gd hg hgd

/-- C3 witness: the amended sign characterization applied to a concrete
buy/sell pair (net 500, importing), a concrete fallback reading (400,
importing), and the Scenario A battery payload (direction code 1,
exporting). -/
theorem C3_grid_sign_amended_witness :
    (pfind (processSolarData [] false (some lmBuySell) [] 1) "grid_status_calculated" =
        some (PVal.s "importing") ↔ 0 < (800 : Rat) - 300) ∧
    (pfind (processSolarData gridFallbackData false none [] 1) "grid_status_calculated" =
        some (PVal.s "importing") ↔ 0 < (400 : Rat)) ∧
    pfind (processBatteryRealtimeData scenarioAData 100) "grid_status_calculated" =
      some (PVal.s (if (1 : Int) = 1 then "exporting"
        else if (1 : Int) = -1 then "importing" else "idle")) :=
  ⟨(C3_grid_sign_amended.1 [] false lmBuySell [] 1 (Val.num 800) (Val.num 300) 800 300
      (by decide) (by decide) (by decide) (by decide)).1,
   (C3_grid_sign_amended.2.1 gridFallbackData [] 1 (Val.num 400) 400
      (by decide) (by decide)).1,
   C3_grid_sign_amended.2.2 scenarioAData 100 (-500) 1 (by decide) (by decide)⟩

/-- C5 counterexample: for a battery payload missing sysGridPowerWatt the
record carries grid_power_abs = 0 instead of omitting it, and for a
payload whose sysGridPowerWatt is the string "abc" the conversion
failure aborts the whole body, omitting even the valid battery_level. -/
theorem C5_counterexample :
    pfind (processBatteryRealtimeData levelOnlyData 1) "grid_power_abs" =
        some (PVal.num 0) ∧
    pfind (processBatteryRealtimeData badGridData 1) "battery_level" = none := by decide

/-- C5 amended: the battery realtime reconciliation never raises, but an
unconditionally-read field that is absent is written as 0 (grid_power_abs
is 0 whenever sysGridPowerWatt is missing), and a conversion failure on
such a field returns the partial record, omitting every field not yet
written (a failure on sysGridPowerWatt yields the empty record); only
the fields read inside their own inner try are omitted individually. -/
theorem C5_failure_semantics_amended :
    (∀ (data : VDict) (doy : Nat), findVal data "sysGridPowerWatt" = none →
      pfind (processBatteryRealtimeData data doy) "grid_power_abs" =
        some (PVal.num 0)) ∧
    (∀ (data : VDict) (doy : Nat) (v : Val), findVal data "sysGridPowerWatt" = some v →
      v.toFloat? = none → processBatteryRealtimeData data doy = []) := by
  constructor
  · intro data doy h
    have hg : floatGetD data "sysGridPowerWatt" = some 0 := by
      unfold floatGetD
      rw [h]
    have hres := processBattery_gridAbs data doy 0 hg
    simpa using hres
  · intro data doy v hv hf
    have hg : floatGetD data "sysGridPowerWatt" = none := by
      unfold floatGetD
      rw [hv]
      exact hf
    unfold processBatteryRealtimeData
    simp [hg]

/-- C5 witness: the amended failure semantics at the concrete payloads
{batEnergyPercent: 77} and {sysGridPowerWatt: "abc", batEnergyPercent: 77}. -/
theorem C5_failure_semantics_amended_witness :
    pfind (processBatteryRealtimeData levelOnlyData 5) "grid_power_abs" =
        some (PVal.num 0) ∧
    processBatteryRealtimeData badGridData 5 = [] :=
  ⟨C5_failure_semantics_amended.1 levelOnlyData 5 (by decide),
   C5_failure_semantics_amended.2 badGridData 5 (Val.str "abc") (by decide) (by decide)⟩

/-- C4 counterexample: with a present but offline realtime point
({isOnline: "0"}), no history and no load monitoring, get_device_data
still succeeds, processing the device in NIGHTTIME mode with an empty
primary source — the claimed whole-device failure does not occur because
the failure guard only checks that realtime and history are absent. -/
theorem C4_counterexample :
    (getDeviceData .solar offlineFetch 1).isSome = true ∧
    (getDeviceData .solar offlineFetch 1).map (fun r => r.dataToProcess) =
      some [] := by decide

/-- C4 amended: the primary-source ranking is as claimed (online realtime,
then non-empty history, then the empty NIGHTTIME source), but the
whole-device failure occurs only when realtime and history are both
absent or empty AND load monitoring is absent; a present-but-offline
realtime point prevents the failure even though the device is processed
in NIGHTTIME mode. -/
theorem C4_source_selection_amended :
    (∀ (fr : FetchResults) (doy : Nat),
      optTruthy fr.realtime = true → isOnlineOne (fr.realtime.getD []) = true →
      (getDeviceData .solar fr doy).map (fun r => (r.dataToProcess, r.isRealtime)) =
        some (fr.realtime.getD [], true)) ∧
    (∀ (fr : FetchResults) (doy : Nat),
      (optTruthy fr.realtime && isOnlineOne (fr.realtime.getD [])) = false →
      optTruthy fr.history = true →
      (getDeviceData .solar fr doy).map (fun r => (r.dataToProcess, r.isRealtime)) =
        some (fr.history.getD [], false)) ∧
    (∀ (fr : FetchResults) (doy : Nat),
      (optTruthy fr.realtime && isOnlineOne (fr.realtime.getD [])) = false →
      optTruthy fr.history = false →
      (optTruthy fr.realtime = true ∨ fr.loadMonitoring.isNone = false) →
      (getDeviceData .solar fr doy).map (fun r => (r.dataToProcess, r.isRealtime)) =
        some ([], false)) ∧
    (∀ (fr : FetchResults) (doy : Nat),
      optTruthy fr.realtime = false → optTruthy fr.history = false →
      fr.loadMonitoring = none →
      getDeviceData .solar fr doy = none) := by
  refine ⟨?_, ?_, ?_, ?_⟩
  · intro fr doy h1 h2
    unfold getDeviceData
    simp [h1, h2]
  · intro fr doy h1 h2
    unfold getDeviceData
    simp [h1, h2]
  · intro fr doy h1 h2 h3
    unfold getDeviceData
    rcases h3 with h3 | h3
    · have hb : isOnlineOne (fr.realtime.getD []) = false := by
        simpa [h3] using h1
      simp [h1, h2, h3, hb]
    · simp [h1, h2, h3]
  · intro fr doy h1 h2 h3
    unfold getDeviceData
    simp [h1, h2, h3]

/-- C4 witness: the amended selection at four concrete fetch outcomes —
online realtime, history only, load monitoring only, and nothing. -/
theorem C4_source_selection_amended_witness :
    (getDeviceData .solar onlineFetch 1).map (fun r => (r.dataToProcess, r.isRealtime)) =
      some (onlineFetch.realtime.getD [], true) ∧
    (getDeviceData .solar historyFetch 1).map (fun r => (r.dataToProcess, r.isRealtime)) =
      some (historyFetch.history.getD [], false) ∧
    (getDeviceData .solar lmOnlyFetch 1).map (fun r => (r.dataToProcess, r.isRealtime)) =
      some ([], false) ∧
    getDeviceData .solar emptyFetch 1 = none :=
  ⟨C4_source_selection_amended.1 onlineFetch 1 (by decide) (by decide),
   C4_source_selection_amended.2.1 historyFetch 1 (by decide) (by decide),
   C4_source_selection_amended.2.2.1 lmOnlyFetch 1 (by decide) (by decide)
     (Or.inr (by decide)),
   C4_source_selection_amended.2.2.2 emptyFetch 1 (by decide) (by decide) rfl⟩

/-- C6 counterexample: with the primary source reporting todayPvEnergy 5
and load monitoring reporting a today total pvEnergy 7, the record ends
with today_pv_energy = 7 — the load-monitoring total, processed last,
overwrites the value already obtained from the higher-ranked primary
source, contradicting first-available-wins. -/
theorem C6_counterexample :
    pfind (processSolarData todayPv5Data false (some lmPv7) [] 1) "today_pv_energy" =
        some (PVal.num 7) ∧
    pfind (processSolarData todayPv5Data false (some lmPv7) [] 1) "today_pv_energy" ≠
        some (PVal.num 5) := by decide

/-- C6 amended: first-available-wins holds for the total-energy fields —
total_pv_energy prefers the primary source over plant statistics, and
total_grid_export, once set from the primary source, is not overwritten
by the load-monitoring sellEnergy — but the load-monitoring today totals
(pvEnergy, buyEnergy, sellEnergy), processed last, overwrite
today_pv_energy, today_grid_import_energy and today_grid_export_energy
whenever present; today_pv_energy is 0 under NIGHTTIME when load
monitoring is absent. -/
theorem C6_energy_ranking_amended :
    (∀ (data : VDict) (night : Bool) (ps : VDict) (doy : Nat) (l : LoadMon)
        (v : Val) (q : Rat),
      findVal l.total "pvEnergy" = some v → v.toFloat? = some q →
      pfind (processSolarData data night (some l) ps doy) "today_pv_energy" =
        some (PVal.num q)) ∧
    (∀ (data ps : VDict) (night : Bool) (lm : Option LoadMon) (doy : Nat)
        (v : Val) (q : Rat),
      findVal data "totalPvEnergy" = some v → v.toFloat? = some q →
      pfind (processSolarData data night lm ps doy) "total_pv_energy" =
        some (PVal.num q)) ∧
    (∀ (data ps : VDict) (night : Bool) (l : LoadMon) (doy : Nat) (v : Val) (q : Rat),
      findVal data "totalSellEnergy" = some v → v.toFloat? = some q →
      pfind (processSolarData data night (some l) ps doy) "total_grid_export" =
        some (PVal.num q)) ∧
    (∀ (data ps : VDict) (doy : Nat),
      pfind (processSolarData data true none ps doy) "today_pv_energy" =
        some (PVal.num 0)) := by
  refine ⟨?_, ?_, ?_, ?_⟩
  · intro data night ps doy l v q hv hf
    unfold processSolarData solarEnergySection energyLmBlock
    rw [energyLmSell_pfind_ne _ _ _ (by decide) (by decide),
      energyLmBuy_pfind_ne _ _ _ (by decide) (by decide)]
    unfold energyLmLoad energyLmPv
    rw [tryFloatPresent_pfind _ _ _ _ _ (by decide)]
    exact tryFloatPresent_pfind_eq _ _ _ _ v q hv hf
  · intro data ps night lm doy v q hv hf
    unfold processSolarData solarEnergySection
    rw [energyLmBlock_pfind_ne _ _ _ (by decide) (by decide) (by decide) (by decide)
        (by decide) (by decide),
      energyTotalExport_pfind_ne _ _ _ _ (by decide),
      energyTodayExport_pfind_ne _ _ _ _ (by decide)]
    exact energyTotalPv_pfind_eq _ _ _ v q hv hf
  · intro data ps night l doy v q hv hf
    unfold processSolarData solarEnergySection energyLmBlock
    apply energyLmSell_total_preserved
    rw [energyLmBuy_pfind_ne _ _ _ (by decide) (by decide)]
    unfold energyLmLoad energyLmPv
    rw [tryFloatPresent_pfind _ _ _ _ _ (by decide),
      tryFloatPresent_pfind _ _ _ _ _ (by decide)]
    exact energyTotalExport_pfind_eq _ _ _ v q hv hf
  · intro data ps doy
    unfold processSolarData solarEnergySection energyLmBlock
    rw [energyTotalExport_pfind_ne _ _ _ _ (by decide),
      energyTodayExport_pfind_ne _ _ _ _ (by decide),
      energyTotalPv_pfind_ne _ _ _ _ (by decide)]
    unfold energyTodayPv
    simp only [if_true]
    exact pfind_pput _ _ _

/-- C6 witness: the amended ranking at concrete inputs — a
load-monitoring pvEnergy 7 wins for today_pv_energy, the primary
totalPvEnergy 13 and totalSellEnergy 11 win over plant statistics and
the load-monitoring sellEnergy 9, and a nighttime record without load
monitoring carries today_pv_energy 0. -/
theorem C6_energy_ranking_amended_witness :
    pfind (processSolarData [] false (some lmPv7) [] 2) "today_pv_energy" =
        some (PVal.num 7) ∧
    pfind (processSolarData exportBothData false none [] 2) "total_pv_energy" =
        some (PVal.num 13) ∧
    pfind (processSolarData exportBothData false (some lmSell9) [] 2) "total_grid_export" =
        some (PVal.num 11) ∧
    pfind (processSolarData [] true none [] 2) "today_pv_energy" =
        some (PVal.num 0) :=
  ⟨C6_energy_ranking_amended.1 [] false [] 2 lmPv7 (Val.num 7) 7 (by decide) (by decide),
   C6_energy_ranking_amended.2.1 exportBothData [] false none 2 (Val.num 13) 13
     (by decide) (by decide),
   C6_energy_ranking_amended.2.2.1 exportBothData [] false lmSell9 2 (Val.num 11) 11
     (by decide) (by decide),
   C6_energy_ranking_amended.2.2.2 [] [] 2⟩

/-- C7: in daytime processing with a reported totalPVPower parsing to t,
the calculated total is t when t > 0, and the per-channel sum (the fold
of the pv{i}power channels the code accumulates) when t = 0 and that sum
is positive. -/
theorem C7_total_pv_selection (data : VDict) (lm : Option LoadMon) (ps : VDict)
    (doy : Nat) (v : Val) (t : Rat)
    (hv : findVal data "totalPVPower" = some v) (hf : v.toFloat? = some t) :
    (0 < t → pfind (processSolarData data false lm ps doy) "total_pv_power_calculated" =
        some (PVal.num t)) ∧
    (t = 0 → 0 < (pvIdx.foldl (pvPowerStep data) ([], 0)).2 →
      pfind (processSolarData data false lm ps doy) "total_pv_power_calculated" =
        some (PVal.num (pvIdx.foldl (pvPowerStep data) ([], 0)).2)) := by
  have hred := processSolar_day_totalpv data lm ps doy
  have hval : pfind (solarDayPv data []) "total_pv_power_calculated" =
      some (.num (if t > 0 then t else
        if (pvIdx.foldl (pvPowerStep data) ([], 0)).2 > 0 then
          (pvIdx.foldl (pvPowerStep data) ([], 0)).2 else 0)) := by
    unfold solarDayPv
    exact pvTotalDecision_pfind_eq data _ _ v t hv hf
  constructor
  · intro ht
    rw [hred, hval, if_pos ht]
  · intro ht hs
    rw [hred, hval, if_neg (by rw [ht]; exact lt_irrefl 0), if_pos hs]

/-- C7 witness: Scenario C — pv1power 100, pv2power 50, totalPVPower 0 —
yields total_pv_power_calculated equal to the channel sum, which is 150. -/
theorem C7_total_pv_selection_witness :
    pfind (processSolarData scenarioCData false none [] 1) "total_pv_power_calculated" =
      some (PVal.num (pvIdx.foldl (pvPowerStep scenarioCData) ([], 0)).2) ∧
    (pvIdx.foldl (pvPowerStep scenarioCData) ([], 0)).2 = 150 := by
  have hsum : (pvIdx.foldl (pvPowerStep scenarioCData) ([], 0)).2 = 150 := by
    have k1 : ("pv" ++ toString (1 : Nat) ++ "power") = "pv1power" := rfl
    have k2 : ("pv" ++ toString (2 : Nat) ++ "power") = "pv2power" := rfl
    have k3 : ("pv" ++ toString (3 : Nat) ++ "power") = "pv3power" := rfl
    have k4 : ("pv" ++ toString (4 : Nat) ++ "power") = "pv4power" := rfl
    have k5 : ("pv" ++ toString (5 : Nat) ++ "power") = "pv5power" := rfl
    have k6 : ("pv" ++ toString (6 : Nat) ++ "power") = "pv6power" := rfl
    have k7 : ("pv" ++ toString (7 : Nat) ++ "power") = "pv7power" := rfl
    have k8 : ("pv" ++ toString (8 : Nat) ++ "power") = "pv8power" := rfl
    have k9 : ("pv" ++ toString (9 : Nat) ++ "power") = "pv9power" := rfl
    have k10 : ("pv" ++ toString (10 : Nat) ++ "power") = "pv10power" := rfl
    have k11 : ("pv" ++ toString (11 : Nat) ++ "power") = "pv11power" := rfl
    have k12 : ("pv" ++ toString (12 : Nat) ++ "power") = "pv12power" := rfl
    have k13 : ("pv" ++ toString (13 : Nat) ++ "power") = "pv13power" := rfl
    have k14 : ("pv" ++ toString (14 : Nat) ++ "power") = "pv14power" := rfl
    have k15 : ("pv" ++ toString (15 : Nat) ++ "power") = "pv15power" := rfl
    have k16 : ("pv" ++ toString (16 : Nat) ++ "power") = "pv16power" := rfl
    simp [pvIdx, pvPowerStep, scenarioCData, findVal, Val.truthy, Val.toFloat?,
      k1, k2, k3, k4, k5, k6, k7, k8, k9, k10, k11, k12, k13, k14, k15, k16]
    norm_num
  refine ⟨?_, hsum⟩
  exact (C7_total_pv_selection scenarioCData none [] 1 (Val.num 0) 0
    (by decide) (by decide)).2 rfl (by rw [hsum]; norm_num)

/-- C8 counterexample: on the battery history path the payload
{batPower: 100, batteryDirection: 0} is reconciled to
battery_status_calculated = "Discharging" although the directional code
is the neutral value — that path derives the status from the sign of
batPower and ignores batteryDirection. -/
theorem C8_counterexample :
    pfind (processDeviceData (some histNeutralData) [] .battery false none 1)
      "battery_status_calculated" = some (PVal.s "Discharging") := by decide

/-- C8 amended: on the battery realtime path a neutral (or absent,
defaulted to 0) batteryDirection always yields "Standby", whatever the
sign of batPower; on the history path the status comes from the sign of
batPower alone (positive Discharging, negative Charging, zero Standby)
and the directional code is ignored. -/
theorem C8_battery_standby_amended :
    (∀ (data : VDict) (doy : Nat) (g ld bp bl : Rat) (gd : Int),
      floatGetD data "sysGridPowerWatt" = some g →
      intGetD data "gridDirection" = some gd →
      floatGetD data "sysTotalLoadWatt" = some ld →
      floatGetD data "batPower" = some bp →
      floatGetD data "batEnergyPercent" = some bl →
      intGetD data "batteryDirection" = some 0 →
      pfind (processBatteryRealtimeData data doy) "battery_status_calculated" =
        some (PVal.s "Standby")) ∧
    (∀ (data ps : VDict) (lm : Option LoadMon) (doy : Nat) (bp : Rat),
      data.isEmpty = false →
      floatGetD data "batPower" = some bp →
      pfind (processDeviceData (some data) ps .battery false lm doy)
          "battery_status_calculated" =
        some (PVal.s (if bp > 0 then "Discharging"
          else if bp < 0 then "Charging" else "Standby"))) := by
  constructor
  · intro data doy g ld bp bl gd hg hgd hld hbp hbl hbd
    have hres := processBattery_status data doy g ld bp bl gd 0 hg hgd hld hbp hbl hbd
    simpa using hres
  · intro data ps lm doy bp hne hbp
    unfold processDeviceData
    simp only [optTruthy, hne, Bool.not_false, Bool.not_true, Bool.false_and,
      Bool.and_false, if_false, reduceCtorEq]
    rw [plantStatsSection_pfind _ _ _ _ (by decide) (by decide) (by decide) (by decide),
      genericTempSection_pfind _ _ _ (by decide) (by decide)]
    exact batteryHistoryBlock_status data [] bp hbp

/-- C8 witness: the amended battery-status rules at concrete payloads —
{batteryDirection: 0, batPower: 150} gives Standby on the realtime path,
and {batPower: 100, batteryDirection: 0} gives Discharging on the
history path. -/
theorem C8_battery_standby_amended_witness :
    pfind (processBatteryRealtimeData standbyData 1) "battery_status_calculated" =
      some (PVal.s "Standby") ∧
    pfind (processDeviceData (some histNeutralData) [] .battery false none 1)
        "battery_status_calculated" =
      some (PVal.s (if (100 : Rat) > 0 then "Discharging"
        else if (100 : Rat) < 0 then "Charging" else "Standby")) :=
  ⟨C8_battery_standby_amended.1 standbyData 1 0 0 150 0 0 (by decide) (by decide)
     (by decide) (by decide) (by decide) (by decide),
   C8_battery_standby_amended.2 histNeutralData [] none 1 100 (by decide) (by decide)⟩

/-- C9 counterexample: a token response missing data.access_token yields
no token, yet the source fetchers of a battery device are still invoked
(plant statistics, device info and the realtime point are fetched
unconditionally; each fails its own internal token acquisition) — the
claimed "no fetcher is subsequently invoked" does not hold. -/
theorem C9_counterexample :
    getToken tokenNoAccess = none ∧
    deviceFetchCalls .battery =
      [.plantStatsK, .deviceInfoK, .realtimeK] := by decide

/-- C9 amended: a token response whose data object lacks access_token
yields no token, and every request made without a token returns None, so
each fetcher — although still invoked — produces no data. -/
theorem C9_token_failure_amended (resp : TokenJson) (d : VDict)
    (h : tfind resp "data" = some (.obj d))
    (ha : findVal d "access_token" = none) :
    getToken resp = none ∧
    (∀ r : Option VDict, makeApiRequest (getToken resp) r = none) := by
  have ht : getToken resp = none := by
    unfold getToken
    simp [h, ha]
  exact ⟨ht, fun r => by unfold makeApiRequest; rw [ht]⟩

/-- C9 witness: the amended token-failure behavior at the concrete
malformed response. -/
theorem C9_token_failure_amended_witness :
    getToken tokenNoAccess = none ∧
    makeApiRequest (getToken tokenNoAccess) (some [("x", Val.num 1)]) = none :=
  ⟨(C9_token_failure_amended tokenNoAccess [("expires_in", Val.num 7200)]
      (by decide) (by decide)).1,
   (C9_token_failure_amended tokenNoAccess [("expires_in", Val.num 7200)]
      (by decide) (by decide)).2 (some [("x", Val.num 1)])⟩

/-- C10: when a load-monitoring bundle is present but its latest sample
lacks buyPower or sellPower, the record carries neither
grid_status_calculated nor grid_power_abs — in particular the
totalGridPowerWatt fallback is not consulted. -/
theorem C10_lm_pair_required (data : VDict) (night : Bool) (ps : VDict) (doy : Nat)
    (l : LoadMon)
    (h : hasKey l.latest "buyPower" = false ∨ hasKey l.latest "sellPower" = false) :
    pfind (processSolarData data night (some l) ps doy) "grid_status_calculated" = none ∧
    pfind (processSolarData data night (some l) ps doy) "grid_power_abs" = none := by
  have base : ∀ k, k = "grid_status_calculated" ∨ k = "grid_power_abs" →
      pfind (if night then solarNightFill []
        else solarTempSection data (solarPhaseSection data (solarDayPv data []))) k =
        none := by
    intro k hk
    cases night with
    | false =>
      simp only [Bool.false_eq_true, if_false]
      rcases hk with hk | hk <;> subst hk <;>
        rw [solarTempSection_pfind _ _ _ (by decide) (by decide),
          solarPhaseSection_pfind _ _ _ (by decide),
          solarDayPv_pfind _ _ _ (by decide) (by decide) (by decide)] <;> rfl
    | true =>
      simp only [if_true]
      rcases hk with hk | hk <;> subst hk <;> decide
  constructor
  · rw [processSolar_post_pfind _ _ _ _ _ _ (by decide),
      solarGridSection_skip _ _ _ _ h]
    exact base _ (Or.inl rfl)
  · rw [processSolar_post_pfind _ _ _ _ _ _ (by decide),
      solarGridSection_skip _ _ _ _ h]
    exact base _ (Or.inr rfl)

/-- C10 witness: a payload carrying totalGridPowerWatt together with a
load-monitoring bundle whose latest sample only has buyPower yields a
record without grid status or magnitude. -/
theorem C10_lm_pair_required_witness :
    pfind (processSolarData gridFallbackData false (some lmBuyOnly) [] 1)
      "grid_status_calculated" = none ∧
    pfind (processSolarData gridFallbackData false (some lmBuyOnly) [] 1)
      "grid_power_abs" = none :=
  C10_lm_pair_required gridFallbackData false [] 1 lmBuyOnly (Or.inr (by decide))

end SAJ
